import Mathlib

/-!
# Verification of the DHT cold-chain alert escalation core

Shallow embedding of the alert lifecycle of the DHT repository.

The live code path of the repository is `DHT/alerts_services.py` together
with `DHT/alerts_views.py` (every view and management command imports from
`alerts_services`); the module `DHT/monitoring.py` contains an older
duplicate engine that no other module imports.  Both variants are embedded
here where a claim refers to them; definitions from `monitoring.py` carry a
`monitoring_` prefix.

Conventions of the embedding:
* timestamps are natural numbers counted in minutes (`timedelta(minutes=m)`
  becomes `+ m`);
* temperatures and humidities are rationals (`ℚ`), `None` is `Option.none`;
* Django settings overrides are an explicit `Settings` record of optional
  values (`getattr(settings, X, default)` becomes `Option.getD`);
* the database tables are explicit lists (`SysState`), a queryset filter is
  `List.filter`, `save` of an existing row rewrites the row with the same
  primary key, `create` appends a fresh row;
* the mail / voice transport is an oracle argument (`Except String Unit`):
  `Except.ok` means the send succeeded, `Except.error e` the exception text.
-/

namespace DHTSpec

/-- `Alert.STATUS_*` from `DHT/models.py`. -/
inductive AlertStatus where
  | OPEN
  | ACKNOWLEDGED
  | RESOLVED
deriving DecidableEq

/-- `Alert.SEV_*` from `DHT/models.py`. -/
inductive Severity where
  | LOW
  | MEDIUM
  | HIGH
deriving DecidableEq

/-- `UserProfile.STATUS_*` from `DHT/models.py`. -/
inductive ProfileStatus where
  | ACTIVE
  | INACTIVE
deriving DecidableEq

/-- Role strings used by `_users_for_role_exact` / `_roles_up_to_level`
in `DHT/alerts_services.py`. -/
inductive Role where
  | OPERATOR
  | MANAGER
  | ADMIN
deriving DecidableEq

/-- `AlertNotificationLog.CHANNEL_*` from `DHT/models.py`. -/
inductive Channel where
  | EMAIL
  | CALL
deriving DecidableEq

/-- `AlertNotificationLog.STATUS_*` from `DHT/models.py`. -/
inductive LogStatus where
  | SENT
  | FAILED
deriving DecidableEq

/-- `Ticket.STATUS_*` from `DHT/models.py`. -/
inductive TicketStatus where
  | OPEN
  | IN_PROGRESS
  | CLOSED
deriving DecidableEq

/-- `Ticket.PRIORITY_*` from `DHT/models.py`. -/
inductive TicketPriority where
  | LOW
  | MEDIUM
  | HIGH
deriving DecidableEq

/-- The process-wide Django settings overrides read by
`get_monitoring_config` (both variants) and by `send_role_email`.
`none` means the setting is absent, so `getattr` falls back to the
module-level default. -/
structure Settings where
  TEMP_MIN : Option ℚ
  TEMP_MAX : Option ℚ
  ESCALATION_COUNT : Option ℤ
  RETRY_DELAY_MINUTES : Option ℤ
  REPEAT_DELAY_MINUTES_LEVEL3 : Option ℤ
  DEFAULT_FROM_EMAIL : Option String
deriving DecidableEq

/-- A `Settings` object with no override configured. -/
def noOverrides : Settings :=
  { TEMP_MIN := none
    TEMP_MAX := none
    ESCALATION_COUNT := none
    RETRY_DELAY_MINUTES := none
    REPEAT_DELAY_MINUTES_LEVEL3 := none
    DEFAULT_FROM_EMAIL := none }

/-- `DEFAULT_TEMP_MIN` of `DHT/alerts_services.py`. -/
def DEFAULT_TEMP_MIN : ℚ := 2

/-- `DEFAULT_TEMP_MAX` of `DHT/alerts_services.py`. -/
def DEFAULT_TEMP_MAX : ℚ := 8

/-- `DEFAULT_ESCALATION_COUNT` of `DHT/alerts_services.py`. -/
def DEFAULT_ESCALATION_COUNT : ℤ := 3

/-- `DEFAULT_RETRY_DELAY_MINUTES` of `DHT/alerts_services.py` (the value
in the source is `1`). -/
def DEFAULT_RETRY_DELAY_MINUTES : ℤ := 1

/-- `DEFAULT_REPEAT_DELAY_MINUTES_LEVEL3` of `DHT/alerts_services.py`
(the value in the source is `5`). -/
def DEFAULT_REPEAT_DELAY_MINUTES_LEVEL3 : ℤ := 5

/-- The dictionary returned by `get_monitoring_config` in
`DHT/alerts_services.py`.  The three integer entries are stored as `ℕ`;
this is faithful because the source applies `max(1, ·)` to each of them,
so they are positive. -/
structure Config where
  tempMin : ℚ
  tempMax : ℚ
  escalationCount : ℕ
  retryDelayMinutes : ℕ
  repeatDelayMinutesLevel3 : ℕ
deriving DecidableEq

/-- `get_monitoring_config` from `DHT/alerts_services.py`: defaults from
the module constants, every count/delay override floored by `max(1, ·)`. -/
def get_monitoring_config (st : Settings) : Config :=
  { tempMin := st.TEMP_MIN.getD DEFAULT_TEMP_MIN
    tempMax := st.TEMP_MAX.getD DEFAULT_TEMP_MAX
    escalationCount := (max 1 (st.ESCALATION_COUNT.getD DEFAULT_ESCALATION_COUNT)).toNat
    retryDelayMinutes := (max 1 (st.RETRY_DELAY_MINUTES.getD DEFAULT_RETRY_DELAY_MINUTES)).toNat
    repeatDelayMinutesLevel3 :=
      (max 1 (st.REPEAT_DELAY_MINUTES_LEVEL3.getD DEFAULT_REPEAT_DELAY_MINUTES_LEVEL3)).toNat }

/-- `compute_severity` from `DHT/alerts_services.py`: `delta` is the
distance beyond the breached threshold only, `0` when the temperature is
inside `[tempMin, tempMax]`; `delta >= 5` gives HIGH, `delta >= 2` MEDIUM,
otherwise LOW; a `None` temperature gives LOW. -/
def compute_severity (st : Settings) (temp : Option ℚ) : Severity :=
  match temp with
  | none => Severity.LOW
  | some t =>
    let cfg := get_monitoring_config st
    let delta : ℚ :=
      if t < cfg.tempMin then cfg.tempMin - t
      else if t > cfg.tempMax then t - cfg.tempMax
      else 0
    if delta ≥ 5 then Severity.HIGH
    else if delta ≥ 2 then Severity.MEDIUM
    else Severity.LOW

/-- `is_out_of_range` from `DHT/alerts_services.py`. -/
def is_out_of_range (st : Settings) (temp : Option ℚ) : Bool :=
  match temp with
  | none => false
  | some t =>
    let cfg := get_monitoring_config st
    decide (t < cfg.tempMin) || decide (t > cfg.tempMax)

/-- The dictionary returned by `get_monitoring_config` in
`DHT/monitoring.py` (the dead duplicate module): no flooring is applied,
and the integer entries keep their raw values. -/
structure MonitoringConfig where
  temp_min : ℚ
  temp_max : ℚ
  escalation_count : ℤ
  retry_delay : ℤ
  repeat_delay_l3 : ℤ
deriving DecidableEq

/-- `get_monitoring_config` from `DHT/monitoring.py`; its module defaults
are `2.0, 8.0, 3, 1, 30` and no `max(1, ·)` floor is applied. -/
def monitoring_get_monitoring_config (st : Settings) : MonitoringConfig :=
  { temp_min := st.TEMP_MIN.getD 2
    temp_max := st.TEMP_MAX.getD 8
    escalation_count := st.ESCALATION_COUNT.getD 3
    retry_delay := st.RETRY_DELAY_MINUTES.getD 1
    repeat_delay_l3 := st.REPEAT_DELAY_MINUTES_LEVEL3.getD 30 }

/-- Python's built-in `abs` on a rational, written so that it reduces in
the kernel. -/
def pyAbs (x : ℚ) : ℚ := if x < 0 then -x else x

/-- Python's built-in binary `max` on rationals, written so that it
reduces in the kernel. -/
def pyMax (a b : ℚ) : ℚ := if a < b then b else a

/-- `compute_severity` from `DHT/monitoring.py`: it takes
`delta = max(abs(temp - temp_min), abs(temp - temp_max))` even for an
in-range temperature. -/
def monitoring_compute_severity (st : Settings) (temp : Option ℚ) : Severity :=
  match temp with
  | none => Severity.LOW
  | some t =>
    let cfg := monitoring_get_monitoring_config st
    let delta : ℚ := pyMax (pyAbs (t - cfg.temp_min)) (pyAbs (t - cfg.temp_max))
    if delta ≥ 5 then Severity.HIGH
    else if delta ≥ 2 then Severity.MEDIUM
    else Severity.LOW

/-- A row of Django's `auth_user` table together with its optional
`UserProfile` row (`DHT/models.py`).  `profile = none` models a user for
whom no `UserProfile` row exists yet; `UserProfile.objects.get_or_create`
then creates one whose `status` defaults to `ACTIVE`. -/
structure DUser where
  id : ℕ
  email : String
  is_active : Bool
  is_staff : Bool
  is_superuser : Bool
  profile : Option ProfileStatus
deriving DecidableEq

/-- The profile status observed through
`UserProfile.objects.get_or_create(user=u)`: the stored status, or the
model default `ACTIVE` when no profile row exists. -/
def DUser.effStatus (u : DUser) : ProfileStatus :=
  u.profile.getD ProfileStatus.ACTIVE

/-- `_users_for_role_exact` from `DHT/alerts_services.py`: active users
filtered by the Django flag combination of the role. -/
def users_for_role_exact (users : List DUser) (role : Role) : List DUser :=
  let qs := users.filter (fun u => u.is_active)
  match role with
  | Role.ADMIN => qs.filter (fun u => u.is_superuser)
  | Role.MANAGER => qs.filter (fun u => !u.is_superuser && u.is_staff)
  | Role.OPERATOR => qs.filter (fun u => !u.is_superuser && !u.is_staff)

/-- `_roles_up_to_level` from `DHT/alerts_services.py`. -/
def roles_up_to_level (level : ℕ) : List Role :=
  if level ≤ 1 then [Role.OPERATOR]
  else if level = 2 then [Role.OPERATOR, Role.MANAGER]
  else [Role.OPERATOR, Role.MANAGER, Role.ADMIN]

/-- The role an individual user holds, derived from the two Django flags
the way `_users_for_role_exact` partitions active users (superuser ⇒
ADMIN, staff ⇒ MANAGER, otherwise OPERATOR).  Used to state the
recipient-resolution claims. -/
def DUser.roleOf (u : DUser) : Role :=
  if u.is_superuser then Role.ADMIN
  else if u.is_staff then Role.MANAGER
  else Role.OPERATOR

/-- Insertion of one element into the Python dict `{u.id: u}`: a later
element with an already-present key overwrites the stored value in place,
a new key is appended at the end. -/
def upsertById (acc : List DUser) (u : DUser) : List DUser :=
  if acc.any (fun v => decide (v.id = u.id)) then
    acc.map (fun v => if v.id = u.id then u else v)
  else acc ++ [u]

/-- The dict comprehension `{u.id: u for u in l}.values()` used for
deduplication in `get_recipients_for_level`. -/
def dedupeById (l : List DUser) : List DUser := l.foldl upsertById []

/-- The comparison key `lambda x: x.id` of the final `sorted(...)` call in
`get_recipients_for_level`. -/
def leById (a b : DUser) : Prop := a.id ≤ b.id

instance : DecidableRel leById := fun a b => inferInstanceAs (Decidable (a.id ≤ b.id))

instance : IsTotal DUser leById := ⟨fun a b => Nat.le_total a.id b.id⟩

instance : IsTrans DUser leById := ⟨fun _ _ _ h h' => Nat.le_trans h h'⟩

/-- `get_recipients_for_level` from `DHT/alerts_services.py`: the union of
the exact-role querysets for every role up to `level`, filtered to users
whose (possibly freshly created) profile is ACTIVE and whose email is
non-empty, then deduplicated by id and sorted ascending by id. -/
def get_recipients_for_level (users : List DUser) (level : ℕ) : List DUser :=
  let pool := (roles_up_to_level level).foldl
    (fun acc r => acc ++ users_for_role_exact users r) []
  let recipients := pool.filter
    (fun u => decide (u.effStatus = ProfileStatus.ACTIVE) && decide (u.email ≠ ""))
  List.insertionSort leById (dedupeById recipients)

/-- An `Alert` row (`DHT/models.py`).  `acked_by` / `resolved_by` store
user ids; timestamps are minutes. -/
structure Alert where
  id : ℕ
  sensorId : ℕ
  temperature : Option ℚ
  humidity : Option ℚ
  status : AlertStatus
  severity : Severity
  level : ℕ
  tries_without_response : ℕ
  next_retry_at : Option ℕ
  last_notified_at : Option ℕ
  acked_by : Option ℕ
  acked_at : Option ℕ
  resolved_by : Option ℕ
  resolved_at : Option ℕ
  created_at : ℕ
  updated_at : ℕ
deriving DecidableEq

/-- An `AlertNotificationLog` row (`DHT/models.py`); `recipients` is the
comma-joined snapshot written by `log_email_notification`. -/
structure LogRow where
  alertId : ℕ
  channel : Channel
  recipients : String
  attempt_number : ℕ
  sent_at : ℕ
  status : LogStatus
  error : String
deriving DecidableEq

/-- A `Ticket` row (`DHT/models.py`), one-to-one with an alert. -/
structure Ticket where
  id : ℕ
  alertId : ℕ
  title : String
  description : String
  priority : TicketPriority
  status : TicketStatus
deriving DecidableEq

/-- A `Reading` as handed to `get_or_create_open_alert_for_sensor`
(`DHT/models.py`); the push endpoint may hand over `None` values. -/
structure Reading where
  temperature : Option ℚ
  humidity : Option ℚ
deriving DecidableEq

/-- The role name string used in email subjects/messages. -/
def roleName : Role → String
  | Role.OPERATOR => "OPERATOR"
  | Role.MANAGER => "MANAGER"
  | Role.ADMIN => "ADMIN"

/-- String comparison used by Python's `sorted` on the deduplicated email
list inside `send_role_email`. -/
def leStr (a b : String) : Prop := a < b ∨ a = b

instance : DecidableRel leStr := fun a b =>
  inferInstanceAs (Decidable (a < b ∨ a = b))

/-- `send_role_email` from `DHT/alerts_services.py`, with the message
formatting elided (it does not influence any state) and the
`django.core.mail.send_mail` call replaced by the `transport` oracle.
Returns `(ok, error, emails)` exactly as the source does: an empty
recipient list or a missing `DEFAULT_FROM_EMAIL` short-circuit to a
failure, a transport exception is caught and reported as text. -/
def send_role_email (st : Settings) (transport : Except String Unit)
    (role : Role) (recipients : List DUser) : Bool × String × List String :=
  if recipients.isEmpty then
    (false, "No email recipients for role " ++ roleName role ++ ".", [])
  else
    let emails := (recipients.filterMap
      (fun u => if u.email ≠ "" then some u.email else none)).dedup
    let emails := List.insertionSort leStr emails
    match st.DEFAULT_FROM_EMAIL with
    | none => (false, "DEFAULT_FROM_EMAIL is not configured in settings.py", emails)
    | some _ =>
      match transport with
      | Except.ok _ => (true, "", emails)
      | Except.error e => (false, e, emails)

/-- `log_email_notification` from `DHT/alerts_services.py`: builds the
append-only `AlertNotificationLog` row for one attempt. -/
def log_email_notification (alertId : ℕ) (recipients_joined : String)
    (attempt_number : ℕ) (ok : Bool) (err : String) (now : ℕ) : LogRow :=
  { alertId := alertId
    channel := Channel.EMAIL
    recipients := recipients_joined
    attempt_number := attempt_number
    sent_at := now
    status := if ok then LogStatus.SENT else LogStatus.FAILED
    error := err }

/-- `ensure_ticket` from `DHT/alerts_services.py`: idempotent get-or-create
of the one ticket of an alert.  `newId` is the fresh primary key used when
a row must be created. -/
def ensure_ticket (tickets : List Ticket) (a : Alert) (newId : ℕ) :
    Ticket × List Ticket :=
  match tickets.find? (fun t => decide (t.alertId = a.id)) with
  | some t => (t, tickets)
  | none =>
    let t : Ticket :=
      { id := newId
        alertId := a.id
        title := "Auto ticket (sensor " ++ toString a.sensorId ++ ", alert " ++ toString a.id ++ ")"
        description := "Auto-created by monitoring escalation."
        priority := if a.severity = Severity.HIGH then TicketPriority.HIGH
                    else TicketPriority.MEDIUM
        status := TicketStatus.OPEN }
    (t, tickets ++ [t])

/-- The guard `alert.next_retry_at and now < alert.next_retry_at` of
`process_due_alert_email_only` (a `None` is falsy in Python). -/
def notYetDue (now : ℕ) (next_retry_at : Option ℕ) : Bool :=
  match next_retry_at with
  | none => false
  | some t => decide (now < t)

/-- The role label used for the email content by
`process_due_alert_email_only`:
`"OPERATOR" if level == 1 else ("MANAGER" if level == 2 else "ADMIN")`. -/
def email_role_label (level : ℕ) : Role :=
  if level = 1 then Role.OPERATOR
  else if level = 2 then Role.MANAGER
  else Role.ADMIN

/-- The `send_role_email` call made by `process_due_alert_email_only`:
cumulative recipients for the alert's level, role label from the level. -/
def process_send (st : Settings) (users : List DUser)
    (transport : Except String Unit) (alert : Alert) :
    Bool × String × List String :=
  send_role_email st transport (email_role_label alert.level)
    (get_recipients_for_level users alert.level)

/-- The attempt number `min(alert.tries_without_response + 1,
escalation_count)` computed by `process_due_alert_email_only`. -/
def attempt_number (st : Settings) (alert : Alert) : ℕ :=
  min (alert.tries_without_response + 1) (get_monitoring_config st).escalationCount

/-- The `log_email_notification` row written by
`process_due_alert_email_only` (comma-joined recipient snapshot, attempt
number, outcome and error of the send — written regardless of success). -/
def process_log (st : Settings) (users : List DUser)
    (transport : Except String Unit) (now : ℕ) (alert : Alert) : LogRow :=
  log_email_notification alert.id
    (String.intercalate "," (process_send st users transport alert).2.2)
    (attempt_number st alert)
    (process_send st users transport alert).1
    (process_send st users transport alert).2.1 now

/-- `process_due_alert_email_only` from `DHT/alerts_services.py` — the
escalation engine every driver command runs.  Returns the saved alert, the
appended `AlertNotificationLog` row (if any), and whether `ensure_ticket`
was invoked.  The two guard returns produce no row and no mutation. -/
def process_due_alert_email_only (st : Settings) (users : List DUser)
    (transport : Except String Unit) (now : ℕ) (alert : Alert) :
    Alert × Option LogRow × Bool :=
  if alert.status ≠ AlertStatus.OPEN then (alert, none, false)
  else if notYetDue now alert.next_retry_at then (alert, none, false)
  else if attempt_number st alert ≥ (get_monitoring_config st).escalationCount then
    if alert.level < 3 then
      ({ alert with
          last_notified_at := some now
          tries_without_response := 0
          level := alert.level + 1
          next_retry_at := some now
          updated_at := now },
        some (process_log st users transport now alert),
        decide (alert.level + 1 = 3))
    else
      ({ alert with
          last_notified_at := some now
          tries_without_response := attempt_number st alert
          next_retry_at := some (now + (get_monitoring_config st).repeatDelayMinutesLevel3)
          updated_at := now },
        some (process_log st users transport now alert), false)
  else
    ({ alert with
        last_notified_at := some now
        tries_without_response := attempt_number st alert
        next_retry_at := some (now + (get_monitoring_config st).retryDelayMinutes)
        updated_at := now },
      some (process_log st users transport now alert), false)

/-- The `ack` action of `AlertViewSet` (`DHT/alerts_views.py`): conflict
(`409`, modeled as `Except.error` with the response detail) unless the
alert is OPEN; on success the status, actor, timestamp and `next_retry_at`
are written (`updated_at` refreshes through `auto_now`). -/
def ack (userId : ℕ) (now : ℕ) (alert : Alert) : Except String Alert :=
  if alert.status ≠ AlertStatus.OPEN then
    Except.error "Only OPEN alerts can be acknowledged."
  else
    Except.ok { alert with
      status := AlertStatus.ACKNOWLEDGED
      acked_by := some userId
      acked_at := some now
      next_retry_at := none
      updated_at := now }

/-- The `resolve` action of `AlertViewSet` (`DHT/alerts_views.py`):
conflict if the alert is already RESOLVED (an ACKNOWLEDGED alert may be
resolved); on success the status, actor, timestamp and `next_retry_at` are
written. -/
def resolve (userId : ℕ) (now : ℕ) (alert : Alert) : Except String Alert :=
  if alert.status = AlertStatus.RESOLVED then
    Except.error "Alert already resolved."
  else
    Except.ok { alert with
      status := AlertStatus.RESOLVED
      resolved_by := some userId
      resolved_at := some now
      next_retry_at := none
      updated_at := now }

/-- The queryset
`Alert.objects.filter(sensor=sensor, status=OPEN).order_by("-created_at").first()`
of `get_or_create_open_alert_for_sensor`: the OPEN alert of the sensor
with the greatest `created_at`; `pickLatest` keeps the later-created of
two candidate rows. -/
def pickLatest (best : Option Alert) (a : Alert) : Option Alert :=
  match best with
  | none => some a
  | some b => if b.created_at < a.created_at then some a else some b

def latest_open_alert (alerts : List Alert) (sensorId : ℕ) : Option Alert :=
  (alerts.filter
      (fun a => decide (a.sensorId = sensorId) && decide (a.status = AlertStatus.OPEN))).foldl
    pickLatest
    none

/-- `alert.save(...)` for a pre-existing row: rewrite the row carrying the
same primary key. -/
def updateAlert (alerts : List Alert) (a : Alert) : List Alert :=
  alerts.map (fun x => if x.id = a.id then a else x)

/-- `get_or_create_open_alert_for_sensor` from `DHT/alerts_services.py`:
no alert for an in-range (or `None`) temperature; otherwise update the
existing OPEN alert's snapshot, or create a fresh OPEN alert at level 1
with `next_retry_at = now`.  `newId` is the fresh primary key used on
creation.  Returns the alert handed back to the caller and the updated
alert table. -/
def get_or_create_open_alert_for_sensor (st : Settings) (alerts : List Alert)
    (sensorId : ℕ) (reading : Reading) (now : ℕ) (newId : ℕ) :
    Option Alert × List Alert :=
  if ¬ is_out_of_range st reading.temperature then (none, alerts)
  else
    match latest_open_alert alerts sensorId with
    | some alert =>
      let alert' := { alert with
        temperature := reading.temperature
        humidity := reading.humidity
        severity := compute_severity st reading.temperature
        updated_at := now }
      (some alert', updateAlert alerts alert')
    | none =>
      let alert : Alert :=
        { id := newId
          sensorId := sensorId
          temperature := reading.temperature
          humidity := reading.humidity
          status := AlertStatus.OPEN
          severity := compute_severity st reading.temperature
          level := 1
          tries_without_response := 0
          next_retry_at := some now
          last_notified_at := none
          acked_by := none
          acked_at := none
          resolved_by := none
          resolved_at := none
          created_at := now
          updated_at := now }
      (some alert, alerts ++ [alert])

/-- The persistent store: the `Alert`, `AlertNotificationLog` and `Ticket`
tables. -/
structure SysState where
  alerts : List Alert
  logs : List LogRow
  tickets : List Ticket
deriving DecidableEq

/-- The empty database. -/
def initState : SysState := { alerts := [], logs := [], tickets := [] }

/-- `Alert.objects.get(pk=id)` on the store (first row with the key). -/
def findAlert (s : SysState) (id : ℕ) : Option Alert :=
  s.alerts.find? (fun a => decide (a.id = id))

/-- A fresh `Alert` primary key (strictly above every existing key, as an
autoincrement column provides). -/
def nextAlertId (s : SysState) : ℕ :=
  (s.alerts.map Alert.id).foldl max 0 + 1

/-- A fresh `Ticket` primary key. -/
def nextTicketId (s : SysState) : ℕ :=
  (s.tickets.map Ticket.id).foldl max 0 + 1

/-- The operations of the core, as invoked by the drivers and views:
`process_due_alert_email_only` on one alert (driver tick),
the `ack` / `resolve` view actions, and ingestion of one reading through
`get_or_create_open_alert_for_sensor`. -/
inductive SysOp where
  | processDue (now : ℕ) (transport : Except String Unit) (alertId : ℕ)
  | acknowledge (userId : ℕ) (now : ℕ) (alertId : ℕ)
  | resolveOp (userId : ℕ) (now : ℕ) (alertId : ℕ)
  | createOrUpdate (sensorId : ℕ) (reading : Reading) (now : ℕ)

/-- One step of the system: locate the target row, run the corresponding
source operation, persist its writes.  A missing row or a conflict
response writes nothing. -/
def sysStep (st : Settings) (users : List DUser) (s : SysState) (op : SysOp) :
    SysState :=
  match op with
  | SysOp.processDue now transport alertId =>
    match findAlert s alertId with
    | none => s
    | some a =>
      let r := process_due_alert_email_only st users transport now a
      { alerts := updateAlert s.alerts r.1
        logs := match r.2.1 with
          | some l => s.logs ++ [l]
          | none => s.logs
        tickets := if r.2.2 then (ensure_ticket s.tickets r.1 (nextTicketId s)).2
                   else s.tickets }
  | SysOp.acknowledge userId now alertId =>
    match findAlert s alertId with
    | none => s
    | some a =>
      match ack userId now a with
      | Except.error _ => s
      | Except.ok a' => { s with alerts := updateAlert s.alerts a' }
  | SysOp.resolveOp userId now alertId =>
    match findAlert s alertId with
    | none => s
    | some a =>
      match resolve userId now a with
      | Except.error _ => s
      | Except.ok a' => { s with alerts := updateAlert s.alerts a' }
  | SysOp.createOrUpdate sensorId reading now =>
    let r := get_or_create_open_alert_for_sensor st s.alerts sensorId reading now
      (nextAlertId s)
    { s with alerts := r.2 }

/-- States reachable from the empty database by core operations, for a
fixed settings object and user directory. -/
inductive Reachable (st : Settings) (users : List DUser) : SysState → Prop where
  | init : Reachable st users initState
  | step (s : SysState) (op : SysOp) :
      Reachable st users s → Reachable st users (sysStep st users s op)

/-- Number of OPEN alerts of one sensor in the store. -/
def openCount (s : SysState) (sensorId : ℕ) : ℕ :=
  s.alerts.countP
    (fun a => decide (a.sensorId = sensorId) && decide (a.status = AlertStatus.OPEN))

/-- The inductive invariant of the store: primary keys are unique, each
sensor has at most one OPEN alert, and every alert's retry counter is
within the configured escalation cap. -/
def SysInv (st : Settings) (s : SysState) : Prop :=
  (s.alerts.map Alert.id).Nodup ∧
  (∀ sensorId, openCount s sensorId ≤ 1) ∧
  (∀ a ∈ s.alerts,
    a.tries_without_response ≤ (get_monitoring_config st).escalationCount)

/-!
## Helper lemmas: recipient resolution
-/

theorem mem_foldl_append {α β : Type} (f : β → List α) (l : List β) (acc : List α)
    (u : α) :
    (u ∈ l.foldl (fun a r => a ++ f r) acc) ↔ u ∈ acc ∨ ∃ r ∈ l, u ∈ f r := by
  induction l generalizing acc with
  | nil => simp
  | cons r t ih =>
    rw [List.foldl_cons, ih]
    simp only [List.mem_append, List.mem_cons]
    constructor
    · rintro ((h | h) | ⟨r', hr', hu⟩)
      · exact Or.inl h
      · exact Or.inr ⟨r, Or.inl rfl, h⟩
      · exact Or.inr ⟨r', Or.inr hr', hu⟩
    · rintro (h | ⟨r', rfl | hr', hu⟩)
      · exact Or.inl (Or.inl h)
      · exact Or.inl (Or.inr hu)
      · exact Or.inr ⟨r', hr', hu⟩

theorem mem_users_for_role_exact (users : List DUser) (r : Role) (u : DUser) :
    u ∈ users_for_role_exact users r ↔
      u ∈ users ∧ u.is_active = true ∧ u.roleOf = r := by
  cases r <;>
    · simp only [users_for_role_exact, List.mem_filter, DUser.roleOf,
        Bool.and_eq_true, Bool.not_eq_true', and_assoc]
      cases hsup : u.is_superuser <;> cases hst : u.is_staff <;> simp [hsup, hst]

theorem users_for_role_exact_sublist (users : List DUser) (r : Role) :
    List.Sublist (users_for_role_exact users r) users := by
  cases r <;> exact (List.filter_sublist _).trans (List.filter_sublist _)

theorem nodup_id_users_for_role_exact (users : List DUser) (r : Role)
    (h : (users.map DUser.id).Nodup) :
    ((users_for_role_exact users r).map DUser.id).Nodup :=
  h.sublist ((users_for_role_exact_sublist users r).map DUser.id)

theorem disjoint_id_users_for_role_exact (users : List DUser) (r r' : Role)
    (hne : r ≠ r') (h : (users.map DUser.id).Nodup) :
    ((users_for_role_exact users r).map DUser.id).Disjoint
      ((users_for_role_exact users r').map DUser.id) := by
  intro i hi hi'
  obtain ⟨x, hx, hxi⟩ := List.mem_map.mp hi
  obtain ⟨y, hy, hyi⟩ := List.mem_map.mp hi'
  obtain ⟨hxu, _, hxr⟩ := (mem_users_for_role_exact users r x).mp hx
  obtain ⟨hyu, _, hyr⟩ := (mem_users_for_role_exact users r' y).mp hy
  have hxy : x = y := List.inj_on_of_nodup_map h hxu hyu (hxi.trans hyi.symm)
  exact hne (hxr ▸ hxy ▸ hyr)

theorem upsert_eq_append (acc : List DUser) (u : DUser)
    (h : ∀ v ∈ acc, v.id ≠ u.id) : upsertById acc u = acc ++ [u] := by
  unfold upsertById
  rw [if_neg]
  simp only [List.any_eq_true, decide_eq_true_eq, not_exists, not_and]
  exact fun v hv => h v hv

theorem foldl_upsert_of_nodup (l : List DUser) :
    ∀ acc : List DUser, (((acc ++ l).map DUser.id)).Nodup →
      l.foldl upsertById acc = acc ++ l := by
  induction l with
  | nil => intro acc _; simp
  | cons u t ih =>
    intro acc h
    have hu : ∀ v ∈ acc, v.id ≠ u.id := by
      intro v hv he
      have h' := h
      rw [List.map_append, List.nodup_append] at h'
      exact h'.2.2 (List.mem_map_of_mem DUser.id hv) (by simp [he])
    rw [List.foldl_cons, upsert_eq_append acc u hu, ih (acc ++ [u]) (by simpa using h)]
    simp

theorem dedupeById_of_nodup (l : List DUser) (h : (l.map DUser.id).Nodup) :
    dedupeById l = l := by
  have := foldl_upsert_of_nodup l [] (by simpa using h)
  simpa [dedupeById] using this

/-!
## Helper lemmas: the escalation engine
-/

theorem process_due_not_open (st : Settings) (users : List DUser)
    (transport : Except String Unit) (now : ℕ) (alert : Alert)
    (h : alert.status ≠ AlertStatus.OPEN) :
    process_due_alert_email_only st users transport now alert =
      (alert, none, false) := by
  unfold process_due_alert_email_only
  rw [if_pos h]

theorem process_due_not_yet_due (st : Settings) (users : List DUser)
    (transport : Except String Unit) (now : ℕ) (alert : Alert)
    (h : notYetDue now alert.next_retry_at = true) :
    process_due_alert_email_only st users transport now alert =
      (alert, none, false) := by
  unfold process_due_alert_email_only
  by_cases h0 : alert.status ≠ AlertStatus.OPEN
  · rw [if_pos h0]
  · rw [if_neg h0, if_pos h]

theorem process_due_escalate (st : Settings) (users : List DUser)
    (transport : Except String Unit) (now : ℕ) (alert : Alert)
    (hopen : alert.status = AlertStatus.OPEN)
    (hnyd : notYetDue now alert.next_retry_at = false)
    (h1 : attempt_number st alert ≥ (get_monitoring_config st).escalationCount)
    (h2 : alert.level < 3) :
    process_due_alert_email_only st users transport now alert =
      ({ alert with
          last_notified_at := some now
          tries_without_response := 0
          level := alert.level + 1
          next_retry_at := some now
          updated_at := now },
        some (process_log st users transport now alert),
        decide (alert.level + 1 = 3)) := by
  unfold process_due_alert_email_only
  rw [if_neg (by simp [hopen]), if_neg (by simp [hnyd]), if_pos h1, if_pos h2]

theorem process_due_repeat (st : Settings) (users : List DUser)
    (transport : Except String Unit) (now : ℕ) (alert : Alert)
    (hopen : alert.status = AlertStatus.OPEN)
    (hnyd : notYetDue now alert.next_retry_at = false)
    (h1 : attempt_number st alert ≥ (get_monitoring_config st).escalationCount)
    (h2 : ¬ alert.level < 3) :
    process_due_alert_email_only st users transport now alert =
      ({ alert with
          last_notified_at := some now
          tries_without_response := attempt_number st alert
          next_retry_at := some (now + (get_monitoring_config st).repeatDelayMinutesLevel3)
          updated_at := now },
        some (process_log st users transport now alert), false) := by
  unfold process_due_alert_email_only
  rw [if_neg (by simp [hopen]), if_neg (by simp [hnyd]), if_pos h1, if_neg h2]

theorem process_due_retry (st : Settings) (users : List DUser)
    (transport : Except String Unit) (now : ℕ) (alert : Alert)
    (hopen : alert.status = AlertStatus.OPEN)
    (hnyd : notYetDue now alert.next_retry_at = false)
    (h1 : ¬ attempt_number st alert ≥ (get_monitoring_config st).escalationCount) :
    process_due_alert_email_only st users transport now alert =
      ({ alert with
          last_notified_at := some now
          tries_without_response := attempt_number st alert
          next_retry_at := some (now + (get_monitoring_config st).retryDelayMinutes)
          updated_at := now },
        some (process_log st users transport now alert), false) := by
  unfold process_due_alert_email_only
  rw [if_neg (by simp [hopen]), if_neg (by simp [hnyd]), if_neg h1]

/-!
## Theorems
-/

/-- C6: cumulative recipient resolution returns exactly the eligible users
(account active, profile status ACTIVE — a missing profile is created
ACTIVE — and non-empty email) whose role lies in the union of roles from
OPERATOR up through the role for the level; level 2 covers
OPERATOR+MANAGER, level 3 all three roles; the result has no duplicate
user ids and is sorted ascending by user id. -/
theorem c6_recipients_cumulative (users : List DUser) (level : ℕ)
    (h : (users.map DUser.id).Nodup) :
    (∀ u, u ∈ get_recipients_for_level users level ↔
      (u ∈ users ∧ u.is_active = true ∧ u.roleOf ∈ roles_up_to_level level ∧
        u.effStatus = ProfileStatus.ACTIVE ∧ u.email ≠ "")) ∧
    List.Pairwise leById (get_recipients_for_level users level) ∧
    ((get_recipients_for_level users level).map DUser.id).Nodup ∧
    roles_up_to_level 2 = [Role.OPERATOR, Role.MANAGER] ∧
    roles_up_to_level 3 = [Role.OPERATOR, Role.MANAGER, Role.ADMIN] := by
  have hnodup_pool :
      (((roles_up_to_level level).foldl
        (fun a r => a ++ users_for_role_exact users r) []).map DUser.id).Nodup := by
    have hop := nodup_id_users_for_role_exact users Role.OPERATOR h
    have hman := nodup_id_users_for_role_exact users Role.MANAGER h
    have had := nodup_id_users_for_role_exact users Role.ADMIN h
    have dom := disjoint_id_users_for_role_exact users Role.OPERATOR Role.MANAGER
      (by decide) h
    have doa := disjoint_id_users_for_role_exact users Role.OPERATOR Role.ADMIN
      (by decide) h
    have dma := disjoint_id_users_for_role_exact users Role.MANAGER Role.ADMIN
      (by decide) h
    have hroles : roles_up_to_level level = [Role.OPERATOR] ∨
        roles_up_to_level level = [Role.OPERATOR, Role.MANAGER] ∨
        roles_up_to_level level = [Role.OPERATOR, Role.MANAGER, Role.ADMIN] := by
      unfold roles_up_to_level
      by_cases h1 : level ≤ 1 <;> by_cases h2 : level = 2 <;> simp [h1, h2]
    rcases hroles with hr | hr | hr <;>
      rw [hr] <;>
      simp only [List.foldl_cons, List.foldl_nil, List.nil_append,
        List.map_append, List.nodup_append, List.disjoint_append_left]
    · exact hop
    · exact ⟨hop, hman, dom⟩
    · exact ⟨⟨hop, hman, dom⟩, had, doa, dma⟩
  have hnodup_recips :
      ((((roles_up_to_level level).foldl
          (fun a r => a ++ users_for_role_exact users r) []).filter
        (fun u => decide (u.effStatus = ProfileStatus.ACTIVE) &&
          decide (u.email ≠ ""))).map DUser.id).Nodup :=
    hnodup_pool.sublist ((List.filter_sublist _).map DUser.id)
  have hgr : get_recipients_for_level users level =
      List.insertionSort leById
        ((((roles_up_to_level level).foldl
            (fun a r => a ++ users_for_role_exact users r) []).filter
          (fun u => decide (u.effStatus = ProfileStatus.ACTIVE) &&
            decide (u.email ≠ "")))) := by
    show List.insertionSort leById (dedupeById _) = _
    rw [dedupeById_of_nodup _ hnodup_recips]
  refine ⟨?_, ?_, ?_, by decide, by decide⟩
  · intro u
    rw [hgr, List.mem_insertionSort, List.mem_filter]
    simp only [Bool.and_eq_true, decide_eq_true_eq]
    rw [mem_foldl_append]
    simp only [List.not_mem_nil, false_or]
    constructor
    · rintro ⟨⟨r, hr, hu⟩, hact, hem⟩
      obtain ⟨huu, hia, hrole⟩ := (mem_users_for_role_exact users r u).mp hu
      exact ⟨huu, hia, hrole ▸ hr, hact, hem⟩
    · rintro ⟨huu, hia, hrole, hact, hem⟩
      exact ⟨⟨u.roleOf, hrole,
        (mem_users_for_role_exact users u.roleOf u).mpr ⟨huu, hia, rfl⟩⟩, hact, hem⟩
  · rw [hgr]
    exact List.sorted_insertionSort leById _
  · rw [hgr]
    exact ((List.perm_insertionSort leById _).map DUser.id).nodup_iff.mpr hnodup_recips

/-- C6 (witness): with one active OPERATOR (id 1) and one active MANAGER
(id 2), both with email, cumulative resolution at level 2 contains the
manager. -/
theorem c6_recipients_cumulative_witness :
    { id := 2, email := "m@x", is_active := true, is_staff := true,
      is_superuser := false, profile := some ProfileStatus.ACTIVE : DUser } ∈
      get_recipients_for_level
        [{ id := 1, email := "o@x", is_active := true, is_staff := false,
            is_superuser := false, profile := none },
          { id := 2, email := "m@x", is_active := true, is_staff := true,
            is_superuser := false, profile := some ProfileStatus.ACTIVE }] 2 :=
  ((c6_recipients_cumulative _ 2 (by decide)).1 _).mpr
    (by refine ⟨by decide, rfl, by decide, rfl, by decide⟩)

/-- C1: on a due OPEN alert, `process_due_alert_email_only` logs the
attempt (attempt number `min(tries+1, escalationCount)`), sets tries to
the same value, and then: escalates with `tries = 0` and
`next_retry_at = now` when the cap is reached below level 3, invoking
`ensure_ticket` exactly when the new level is 3; repeats after
`repeatDelayMinutesLevel3` with tries pinned at the cap at level 3; or
retries after `retryDelayMinutes` otherwise — for every transport outcome
and recipient set, i.e. regardless of send success. -/
theorem c1_process_due_schedule (st : Settings) (users : List DUser)
    (transport : Except String Unit) (now : ℕ) (alert : Alert)
    (hopen : alert.status = AlertStatus.OPEN)
    (hdue : ∀ t, alert.next_retry_at = some t → t ≤ now) :
    ∀ cfg r tries, cfg = get_monitoring_config st →
      r = process_due_alert_email_only st users transport now alert →
      tries = min (alert.tries_without_response + 1) cfg.escalationCount →
      ((∃ log, r.2.1 = some log ∧ log.alertId = alert.id ∧
          log.attempt_number = tries ∧ log.sent_at = now) ∧
        (tries ≥ cfg.escalationCount → alert.level < 3 →
          r.1.level = alert.level + 1 ∧ r.1.tries_without_response = 0 ∧
          r.1.next_retry_at = some now ∧ (r.2.2 = true ↔ alert.level + 1 = 3)) ∧
        (tries ≥ cfg.escalationCount → alert.level = 3 →
          r.1.next_retry_at = some (now + cfg.repeatDelayMinutesLevel3) ∧
          r.1.tries_without_response = cfg.escalationCount ∧
          r.1.level = 3 ∧ r.2.2 = false) ∧
        (tries < cfg.escalationCount →
          r.1.next_retry_at = some (now + cfg.retryDelayMinutes) ∧
          r.1.tries_without_response = tries ∧ r.1.level = alert.level ∧
          r.2.2 = false) ∧
        r.1.last_notified_at = some now ∧ r.1.status = alert.status) := by
  intro cfg r tries hcfg hr htries
  have hnyd : notYetDue now alert.next_retry_at = false := by
    unfold notYetDue
    cases hh : alert.next_retry_at with
    | none => rfl
    | some t => simp [Nat.not_lt.mpr (hdue t hh)]
  subst hcfg hr htries
  by_cases h1 : attempt_number st alert ≥ (get_monitoring_config st).escalationCount
  · by_cases h2 : alert.level < 3
    · rw [process_due_escalate st users transport now alert hopen hnyd h1 h2]
      refine ⟨⟨process_log st users transport now alert, rfl, rfl, rfl, rfl⟩,
        ?_, ?_, ?_, rfl, rfl⟩
      · intro _ _
        exact ⟨rfl, rfl, rfl, by simp⟩
      · intro _ h3
        exact absurd h3 (by omega)
      · intro hlt
        exact absurd h1 (not_le.mpr hlt)
    · rw [process_due_repeat st users transport now alert hopen hnyd h1 h2]
      refine ⟨⟨process_log st users transport now alert, rfl, rfl, rfl, rfl⟩,
        ?_, ?_, ?_, rfl, rfl⟩
      · intro _ h3
        exact absurd h3 h2
      · intro _ h3
        exact ⟨rfl, le_antisymm (min_le_right _ _) h1, h3, rfl⟩
      · intro hlt
        exact absurd h1 (not_le.mpr hlt)
  · rw [process_due_retry st users transport now alert hopen hnyd h1]
    refine ⟨⟨process_log st users transport now alert, rfl, rfl, rfl, rfl⟩,
      ?_, ?_, ?_, rfl, rfl⟩
    · intro hge _
      exact absurd hge h1
    · intro hge _
      exact absurd hge h1
    · intro _
      exact ⟨rfl, rfl, rfl, rfl⟩

/-- C1 (witness): a due OPEN alert at level 1 with tries 2 under the
default escalation count 3 escalates to level 2, tries 0,
`next_retry_at = now`, even though the send fails. -/
theorem c1_process_due_schedule_witness :
    (process_due_alert_email_only noOverrides [] (Except.error "boom") 10
      { id := 1, sensorId := 1, temperature := some 0, humidity := none,
        status := AlertStatus.OPEN, severity := Severity.LOW, level := 1,
        tries_without_response := 2, next_retry_at := some 10,
        last_notified_at := none, acked_by := none, acked_at := none,
        resolved_by := none, resolved_at := none, created_at := 0,
        updated_at := 0 }).1.level = 2 ∧
    (process_due_alert_email_only noOverrides [] (Except.error "boom") 10
      { id := 1, sensorId := 1, temperature := some 0, humidity := none,
        status := AlertStatus.OPEN, severity := Severity.LOW, level := 1,
        tries_without_response := 2, next_retry_at := some 10,
        last_notified_at := none, acked_by := none, acked_at := none,
        resolved_by := none, resolved_at := none, created_at := 0,
        updated_at := 0 }).1.tries_without_response = 0 ∧
    (process_due_alert_email_only noOverrides [] (Except.error "boom") 10
      { id := 1, sensorId := 1, temperature := some 0, humidity := none,
        status := AlertStatus.OPEN, severity := Severity.LOW, level := 1,
        tries_without_response := 2, next_retry_at := some 10,
        last_notified_at := none, acked_by := none, acked_at := none,
        resolved_by := none, resolved_at := none, created_at := 0,
        updated_at := 0 }).1.next_retry_at = some 10 := by
  have h := c1_process_due_schedule noOverrides [] (Except.error "boom") 10
    { id := 1, sensorId := 1, temperature := some 0, humidity := none,
        status := AlertStatus.OPEN, severity := Severity.LOW, level := 1,
        tries_without_response := 2, next_retry_at := some 10,
        last_notified_at := none, acked_by := none, acked_at := none,
        resolved_by := none, resolved_at := none, created_at := 0,
        updated_at := 0 } rfl
    (by intro t ht; injection ht with hh; omega)
  have h2 := (h _ _ _ rfl rfl rfl).2.1 (by decide) (by decide)
  exact ⟨h2.1, h2.2.1, h2.2.2.1⟩

/-- C5: `ack` succeeds iff the status is OPEN and `resolve` succeeds iff
the status is not RESOLVED (so resolving an ACKNOWLEDGED alert is
allowed); on failure the conflict detail is returned and the system state
is not mutated; on success the new status, the acting user, a timestamp
and `next_retry_at = null` are recorded. -/
theorem c5_ack_resolve_guards (userId now : ℕ) (alert : Alert) :
    ((∃ a, ack userId now alert = Except.ok a) ↔ alert.status = AlertStatus.OPEN) ∧
    ((∃ a, resolve userId now alert = Except.ok a) ↔ alert.status ≠ AlertStatus.RESOLVED) ∧
    (alert.status ≠ AlertStatus.OPEN →
      ack userId now alert = Except.error "Only OPEN alerts can be acknowledged.") ∧
    (alert.status = AlertStatus.RESOLVED →
      resolve userId now alert = Except.error "Alert already resolved.") ∧
    (∀ a, ack userId now alert = Except.ok a →
      a.status = AlertStatus.ACKNOWLEDGED ∧ a.acked_by = some userId ∧
      a.acked_at = some now ∧ a.next_retry_at = none) ∧
    (∀ a, resolve userId now alert = Except.ok a →
      a.status = AlertStatus.RESOLVED ∧ a.resolved_by = some userId ∧
      a.resolved_at = some now ∧ a.next_retry_at = none) ∧
    (∀ st users s id, findAlert s id = some alert →
      alert.status ≠ AlertStatus.OPEN →
      sysStep st users s (SysOp.acknowledge userId now id) = s) ∧
    (∀ st users s id, findAlert s id = some alert →
      alert.status = AlertStatus.RESOLVED →
      sysStep st users s (SysOp.resolveOp userId now id) = s) := by
  refine ⟨?_, ?_, ?_, ?_, ?_, ?_, ?_, ?_⟩
  · constructor
    · rintro ⟨a, ha⟩
      by_contra hs
      rw [ack, if_pos hs] at ha
      exact absurd ha (by simp)
    · intro hs
      exact ⟨_, by rw [ack, if_neg (by simp [hs])]⟩
  · constructor
    · rintro ⟨a, ha⟩
      intro hs
      rw [resolve, if_pos hs] at ha
      exact absurd ha (by simp)
    · intro hs
      exact ⟨_, by rw [resolve, if_neg hs]⟩
  · intro hs
    rw [ack, if_pos hs]
  · intro hs
    rw [resolve, if_pos hs]
  · intro a ha
    by_cases hs : alert.status ≠ AlertStatus.OPEN
    · rw [ack, if_pos hs] at ha
      exact absurd ha (by simp)
    · rw [ack, if_neg hs] at ha
      simp only [Except.ok.injEq] at ha
      subst ha
      exact ⟨rfl, rfl, rfl, rfl⟩
  · intro a ha
    by_cases hs : alert.status = AlertStatus.RESOLVED
    · rw [resolve, if_pos hs] at ha
      exact absurd ha (by simp)
    · rw [resolve, if_neg hs] at ha
      simp only [Except.ok.injEq] at ha
      subst ha
      exact ⟨rfl, rfl, rfl, rfl⟩
  · intro st users s id hfind hs
    simp only [sysStep, hfind, ack, if_pos hs]
  · intro st users s id hfind hs
    simp only [sysStep, hfind, resolve, if_pos hs]

/-- C5 (witness): acknowledging an OPEN alert succeeds, and resolving an
already-RESOLVED alert returns the conflict error. -/
theorem c5_ack_resolve_guards_witness :
    (∃ a, ack 7 9
      { id := 1, sensorId := 1, temperature := none, humidity := none,
        status := AlertStatus.OPEN, severity := Severity.LOW, level := 1,
        tries_without_response := 0, next_retry_at := some 0,
        last_notified_at := none, acked_by := none, acked_at := none,
        resolved_by := none, resolved_at := none, created_at := 0,
        updated_at := 0 } = Except.ok a) ∧
    resolve 7 9
      { id := 1, sensorId := 1, temperature := none, humidity := none,
        status := AlertStatus.RESOLVED, severity := Severity.LOW, level := 1,
        tries_without_response := 0, next_retry_at := none,
        last_notified_at := none, acked_by := none, acked_at := none,
        resolved_by := some 2, resolved_at := some 3, created_at := 0,
        updated_at := 0 } = Except.error "Alert already resolved." :=
  ⟨((c5_ack_resolve_guards 7 9 _).1).mpr rfl,
    ((c5_ack_resolve_guards 7 9 _).2.2.2.1) rfl⟩

/-- C10: a successful `ack` (resp. `resolve`) changes only the status, the
corresponding actor/timestamp pair, `next_retry_at` and `updated_at`; the
escalation context — level, tries, severity, temperature, humidity,
`last_notified_at` — and the other actor pair are unchanged. -/
theorem c10_ack_resolve_frame (userId now : ℕ) (alert a : Alert) :
    (ack userId now alert = Except.ok a →
      a.id = alert.id ∧ a.sensorId = alert.sensorId ∧
      a.temperature = alert.temperature ∧ a.humidity = alert.humidity ∧
      a.severity = alert.severity ∧ a.level = alert.level ∧
      a.tries_without_response = alert.tries_without_response ∧
      a.last_notified_at = alert.last_notified_at ∧
      a.created_at = alert.created_at ∧ a.resolved_by = alert.resolved_by ∧
      a.resolved_at = alert.resolved_at ∧
      a.status = AlertStatus.ACKNOWLEDGED ∧ a.acked_by = some userId ∧
      a.acked_at = some now ∧ a.next_retry_at = none ∧ a.updated_at = now) ∧
    (resolve userId now alert = Except.ok a →
      a.id = alert.id ∧ a.sensorId = alert.sensorId ∧
      a.temperature = alert.temperature ∧ a.humidity = alert.humidity ∧
      a.severity = alert.severity ∧ a.level = alert.level ∧
      a.tries_without_response = alert.tries_without_response ∧
      a.last_notified_at = alert.last_notified_at ∧
      a.created_at = alert.created_at ∧ a.acked_by = alert.acked_by ∧
      a.acked_at = alert.acked_at ∧
      a.status = AlertStatus.RESOLVED ∧ a.resolved_by = some userId ∧
      a.resolved_at = some now ∧ a.next_retry_at = none ∧ a.updated_at = now) := by
  constructor
  · intro ha
    by_cases hs : alert.status ≠ AlertStatus.OPEN
    · rw [ack, if_pos hs] at ha
      exact absurd ha (by simp)
    · rw [ack, if_neg hs] at ha
      simp only [Except.ok.injEq] at ha
      subst ha
      exact ⟨rfl, rfl, rfl, rfl, rfl, rfl, rfl, rfl, rfl, rfl, rfl, rfl, rfl, rfl, rfl, rfl⟩
  · intro ha
    by_cases hs : alert.status = AlertStatus.RESOLVED
    · rw [resolve, if_pos hs] at ha
      exact absurd ha (by simp)
    · rw [resolve, if_neg hs] at ha
      simp only [Except.ok.injEq] at ha
      subst ha
      exact ⟨rfl, rfl, rfl, rfl, rfl, rfl, rfl, rfl, rfl, rfl, rfl, rfl, rfl, rfl, rfl, rfl⟩

/-- C10 (witness): acknowledging a concrete OPEN alert yields exactly the
record with status/actor/timestamp/schedule changed and the escalation
context (level 2, tries 1, severity, snapshot) intact. -/
theorem c10_ack_resolve_frame_witness :
    (Alert.level
      { id := 2, sensorId := 3, temperature := some 9, humidity := some 1,
        status := AlertStatus.ACKNOWLEDGED, severity := Severity.MEDIUM, level := 2,
        tries_without_response := 1, next_retry_at := none,
        last_notified_at := some 3, acked_by := some 4, acked_at := some 11,
        resolved_by := none, resolved_at := none, created_at := 0,
        updated_at := 11 } =
     Alert.level
      { id := 2, sensorId := 3, temperature := some 9, humidity := some 1,
        status := AlertStatus.OPEN, severity := Severity.MEDIUM, level := 2,
        tries_without_response := 1, next_retry_at := some 4,
        last_notified_at := some 3, acked_by := none, acked_at := none,
        resolved_by := none, resolved_at := none, created_at := 0,
        updated_at := 3 }) ∧
    (Alert.tries_without_response
      { id := 2, sensorId := 3, temperature := some 9, humidity := some 1,
        status := AlertStatus.ACKNOWLEDGED, severity := Severity.MEDIUM, level := 2,
        tries_without_response := 1, next_retry_at := none,
        last_notified_at := some 3, acked_by := some 4, acked_at := some 11,
        resolved_by := none, resolved_at := none, created_at := 0,
        updated_at := 11 } =
     Alert.tries_without_response
      { id := 2, sensorId := 3, temperature := some 9, humidity := some 1,
        status := AlertStatus.OPEN, severity := Severity.MEDIUM, level := 2,
        tries_without_response := 1, next_retry_at := some 4,
        last_notified_at := some 3, acked_by := none, acked_at := none,
        resolved_by := none, resolved_at := none, created_at := 0,
        updated_at := 3 }) ∧
    (Alert.severity
      { id := 2, sensorId := 3, temperature := some 9, humidity := some 1,
        status := AlertStatus.ACKNOWLEDGED, severity := Severity.MEDIUM, level := 2,
        tries_without_response := 1, next_retry_at := none,
        last_notified_at := some 3, acked_by := some 4, acked_at := some 11,
        resolved_by := none, resolved_at := none, created_at := 0,
        updated_at := 11 } =
     Alert.severity
      { id := 2, sensorId := 3, temperature := some 9, humidity := some 1,
        status := AlertStatus.OPEN, severity := Severity.MEDIUM, level := 2,
        tries_without_response := 1, next_retry_at := some 4,
        last_notified_at := some 3, acked_by := none, acked_at := none,
        resolved_by := none, resolved_at := none, created_at := 0,
        updated_at := 3 }) :=
  ⟨((c10_ack_resolve_frame 4 11
      { id := 2, sensorId := 3, temperature := some 9, humidity := some 1,
        status := AlertStatus.OPEN, severity := Severity.MEDIUM, level := 2,
        tries_without_response := 1, next_retry_at := some 4,
        last_notified_at := some 3, acked_by := none, acked_at := none,
        resolved_by := none, resolved_at := none, created_at := 0,
        updated_at := 3 }
      { id := 2, sensorId := 3, temperature := some 9, humidity := some 1,
        status := AlertStatus.ACKNOWLEDGED, severity := Severity.MEDIUM, level := 2,
        tries_without_response := 1, next_retry_at := none,
        last_notified_at := some 3, acked_by := some 4, acked_at := some 11,
        resolved_by := none, resolved_at := none, created_at := 0,
        updated_at := 11 }).1 rfl).2.2.2.2.2.1,
    ((c10_ack_resolve_frame 4 11
      { id := 2, sensorId := 3, temperature := some 9, humidity := some 1,
        status := AlertStatus.OPEN, severity := Severity.MEDIUM, level := 2,
        tries_without_response := 1, next_retry_at := some 4,
        last_notified_at := some 3, acked_by := none, acked_at := none,
        resolved_by := none, resolved_at := none, created_at := 0,
        updated_at := 3 }
      { id := 2, sensorId := 3, temperature := some 9, humidity := some 1,
        status := AlertStatus.ACKNOWLEDGED, severity := Severity.MEDIUM, level := 2,
        tries_without_response := 1, next_retry_at := none,
        last_notified_at := some 3, acked_by := some 4, acked_at := some 11,
        resolved_by := none, resolved_at := none, created_at := 0,
        updated_at := 11 }).1 rfl).2.2.2.2.2.2.1,
    ((c10_ack_resolve_frame 4 11
      { id := 2, sensorId := 3, temperature := some 9, humidity := some 1,
        status := AlertStatus.OPEN, severity := Severity.MEDIUM, level := 2,
        tries_without_response := 1, next_retry_at := some 4,
        last_notified_at := some 3, acked_by := none, acked_at := none,
        resolved_by := none, resolved_at := none, created_at := 0,
        updated_at := 3 }
      { id := 2, sensorId := 3, temperature := some 9, humidity := some 1,
        status := AlertStatus.ACKNOWLEDGED, severity := Severity.MEDIUM, level := 2,
        tries_without_response := 1, next_retry_at := none,
        last_notified_at := some 3, acked_by := some 4, acked_at := some 11,
        resolved_by := none, resolved_at := none, created_at := 0,
        updated_at := 11 }).1 rfl).2.2.2.2.1⟩

/-- C8: an in-range (or null) temperature produces no alert and leaves the
alert table untouched, even when an OPEN alert exists; an out-of-range
temperature updates the most recent OPEN alert's snapshot temperature,
humidity and severity in place (table length unchanged), or, when none
exists, appends a fresh alert with level 1, tries 0, status OPEN and
`next_retry_at = now`. -/
theorem c8_create_or_update (st : Settings) (alerts : List Alert) (sensorId : ℕ)
    (reading : Reading) (now newId : ℕ) :
    (is_out_of_range st reading.temperature = true ↔
      ∃ t, reading.temperature = some t ∧
        (t < (get_monitoring_config st).tempMin ∨
          t > (get_monitoring_config st).tempMax)) ∧
    (is_out_of_range st reading.temperature = false →
      get_or_create_open_alert_for_sensor st alerts sensorId reading now newId =
        (none, alerts)) ∧
    (∀ a0, is_out_of_range st reading.temperature = true →
      latest_open_alert alerts sensorId = some a0 →
      get_or_create_open_alert_for_sensor st alerts sensorId reading now newId =
        (some {
            a0 with
            temperature := reading.temperature
            humidity := reading.humidity
            severity := compute_severity st reading.temperature
            updated_at := now },
          updateAlert alerts {
            a0 with
            temperature := reading.temperature
            humidity := reading.humidity
            severity := compute_severity st reading.temperature
            updated_at := now }) ∧
      (updateAlert alerts {
            a0 with
            temperature := reading.temperature
            humidity := reading.humidity
            severity := compute_severity st reading.temperature
            updated_at := now }).length = alerts.length) ∧
    (is_out_of_range st reading.temperature = true →
      latest_open_alert alerts sensorId = none →
      get_or_create_open_alert_for_sensor st alerts sensorId reading now newId =
        (some {
            id := newId
            sensorId := sensorId
            temperature := reading.temperature
            humidity := reading.humidity
            status := AlertStatus.OPEN
            severity := compute_severity st reading.temperature
            level := 1
            tries_without_response := 0
            next_retry_at := some now
            last_notified_at := none
            acked_by := none
            acked_at := none
            resolved_by := none
            resolved_at := none
            created_at := now
            updated_at := now },
          alerts ++ [{
            id := newId
            sensorId := sensorId
            temperature := reading.temperature
            humidity := reading.humidity
            status := AlertStatus.OPEN
            severity := compute_severity st reading.temperature
            level := 1
            tries_without_response := 0
            next_retry_at := some now
            last_notified_at := none
            acked_by := none
            acked_at := none
            resolved_by := none
            resolved_at := none
            created_at := now
            updated_at := now }])) := by
  refine ⟨?_, ?_, ?_, ?_⟩
  · unfold is_out_of_range
    cases reading.temperature with
    | none => simp
    | some t => simp
  · intro h
    unfold get_or_create_open_alert_for_sensor
    rw [if_pos (by simp [h])]
  · intro a0 h hlatest
    constructor
    · unfold get_or_create_open_alert_for_sensor
      rw [if_neg (by simp [h]), hlatest]
    · unfold updateAlert
      exact List.length_map alerts _
  · intro h hlatest
    unfold get_or_create_open_alert_for_sensor
    rw [if_neg (by simp [h]), hlatest]

/-- C8 (witness): an out-of-range reading (20 degrees against 2..8) on an
empty alert table creates the level-1 OPEN alert with
`next_retry_at = now`. -/
theorem c8_create_or_update_witness :
    get_or_create_open_alert_for_sensor noOverrides [] 7
      { temperature := some 20, humidity := some 1 } 5 1 =
      (some {
          id := 1
          sensorId := 7
          temperature := some 20
          humidity := some 1
          status := AlertStatus.OPEN
          severity := compute_severity noOverrides (some 20)
          level := 1
          tries_without_response := 0
          next_retry_at := some 5
          last_notified_at := none
          acked_by := none
          acked_at := none
          resolved_by := none
          resolved_at := none
          created_at := 5
          updated_at := 5 },
        [{
          id := 1
          sensorId := 7
          temperature := some 20
          humidity := some 1
          status := AlertStatus.OPEN
          severity := compute_severity noOverrides (some 20)
          level := 1
          tries_without_response := 0
          next_retry_at := some 5
          last_notified_at := none
          acked_by := none
          acked_at := none
          resolved_by := none
          resolved_at := none
          created_at := 5
          updated_at := 5 }]) :=
  (c8_create_or_update noOverrides [] 7
    { temperature := some 20, humidity := some 1 } 5 1).2.2.2 (by decide) rfl

/-- C2: the claim mandates the breached-side-only, zero-when-in-range
severity formula, under which every in-range temperature yields LOW.  The
live `compute_severity` of `DHT/alerts_services.py` satisfies this at the
in-range temperature 5 (thresholds 2..8), but the duplicate
`compute_severity` of `DHT/monitoring.py` takes the distance to both
thresholds even in range and returns MEDIUM there, contradicting the
claim — the defect the spec itself flags. -/
theorem c2_monitoring_severity_nonzero_in_range :
    compute_severity noOverrides (some 5) = Severity.LOW ∧
    monitoring_compute_severity noOverrides (some 5) = Severity.MEDIUM ∧
    DEFAULT_TEMP_MIN ≤ 5 ∧ (5 : ℚ) ≤ DEFAULT_TEMP_MAX := by
  refine ⟨by decide, ?_, by decide, by decide⟩
  norm_num [monitoring_compute_severity, monitoring_get_monitoring_config,
    noOverrides, pyAbs, pyMax]

/-- C7 (counterexample): with no override configured, the live
`get_monitoring_config` of `DHT/alerts_services.py` yields
`retryDelayMinutes = 1` and `repeatDelayMinutesLevel3 = 5`, not the 5 and
30 the claim states. -/
theorem c7_default_delays_counterexample :
    (get_monitoring_config noOverrides).retryDelayMinutes = 1 ∧
    (get_monitoring_config noOverrides).repeatDelayMinutesLevel3 = 5 ∧
    ¬ ((get_monitoring_config noOverrides).retryDelayMinutes = 5 ∧
        (get_monitoring_config noOverrides).repeatDelayMinutesLevel3 = 30) := by
  decide

/-- C7 (amended): with no override, the configuration yields
tempMin 2.0, tempMax 8.0, escalationCount 3, retryDelayMinutes 1 and
repeatDelayMinutesLevel3 5; every configured override of the three
integer options is floored to at least 1, and the resulting values are
always at least 1. -/
theorem c7_config_defaults_and_floors (st : Settings) :
    get_monitoring_config noOverrides =
      { tempMin := 2, tempMax := 8, escalationCount := 3,
        retryDelayMinutes := 1, repeatDelayMinutesLevel3 := 5 } ∧
    (∀ n : ℤ, st.ESCALATION_COUNT = some n →
      ((get_monitoring_config st).escalationCount : ℤ) = max 1 n) ∧
    (∀ n : ℤ, st.RETRY_DELAY_MINUTES = some n →
      ((get_monitoring_config st).retryDelayMinutes : ℤ) = max 1 n) ∧
    (∀ n : ℤ, st.REPEAT_DELAY_MINUTES_LEVEL3 = some n →
      ((get_monitoring_config st).repeatDelayMinutesLevel3 : ℤ) = max 1 n) ∧
    1 ≤ (get_monitoring_config st).escalationCount ∧
    1 ≤ (get_monitoring_config st).retryDelayMinutes ∧
    1 ≤ (get_monitoring_config st).repeatDelayMinutesLevel3 := by
  refine ⟨by decide, ?_, ?_, ?_, ?_, ?_, ?_⟩
  · intro n h
    simp only [get_monitoring_config, h, Option.getD_some]
    exact Int.toNat_of_nonneg (le_trans zero_le_one (le_max_left 1 n))
  · intro n h
    simp only [get_monitoring_config, h, Option.getD_some]
    exact Int.toNat_of_nonneg (le_trans zero_le_one (le_max_left 1 n))
  · intro n h
    simp only [get_monitoring_config, h, Option.getD_some]
    exact Int.toNat_of_nonneg (le_trans zero_le_one (le_max_left 1 n))
  · exact Int.toNat_le_toNat (le_max_left 1 _)
  · exact Int.toNat_le_toNat (le_max_left 1 _)
  · exact Int.toNat_le_toNat (le_max_left 1 _)

/-- C7 (witness): a configured override of `-4` on `ESCALATION_COUNT` is
floored to `1`. -/
theorem c7_config_defaults_and_floors_witness :
    ((get_monitoring_config { noOverrides with ESCALATION_COUNT := some (-4) }).escalationCount : ℤ)
      = max 1 (-4) :=
  (c7_config_defaults_and_floors { noOverrides with ESCALATION_COUNT := some (-4) }).2.1 (-4) rfl


/-!
## Helper lemmas: the store and the transition system
-/

theorem updateAlert_map_id (l : List Alert) (b : Alert) :
    (updateAlert l b).map Alert.id = l.map Alert.id := by
  unfold updateAlert
  rw [List.map_map]
  apply List.map_congr_left
  intro x _
  by_cases hx : x.id = b.id
  · simp [Function.comp, if_pos hx, hx]
  · simp [Function.comp, if_neg hx]

theorem updateAlert_length (l : List Alert) (b : Alert) :
    (updateAlert l b).length = l.length := by
  unfold updateAlert
  exact List.length_map l _

theorem find?_updateAlert (l : List Alert) (b : Alert) (i : ℕ) :
    (updateAlert l b).find? (fun x => decide (x.id = i)) =
      (l.find? (fun x => decide (x.id = i))).map
        (fun x => if x.id = b.id then b else x) := by
  unfold updateAlert
  rw [List.find?_map]
  have hp : ((fun x : Alert => decide (x.id = i)) ∘
      (fun x : Alert => if x.id = b.id then b else x)) =
      (fun x : Alert => decide (x.id = i)) := by
    funext x
    by_cases hx : x.id = b.id
    · simp [Function.comp, if_pos hx, hx]
    · simp [Function.comp, if_neg hx]
  rw [hp]

theorem le_foldl_max (l : List ℕ) :
    ∀ i : ℕ, i ≤ l.foldl max i ∧ ∀ x ∈ l, x ≤ l.foldl max i := by
  induction l with
  | nil =>
    intro i
    exact ⟨le_refl i, by simp⟩
  | cons y t ih =>
    intro i
    have h := ih (max i y)
    refine ⟨le_trans (le_max_left i y) h.1, ?_⟩
    intro x hx
    rcases List.mem_cons.mp hx with rfl | hx'
    · exact le_trans (le_max_right i x) h.1
    · exact h.2 x hx'

theorem alert_id_lt_nextAlertId (s : SysState) (a : Alert) (h : a ∈ s.alerts) :
    a.id < nextAlertId s := by
  have hb := (le_foldl_max (s.alerts.map Alert.id) 0).2 a.id
    (List.mem_map_of_mem Alert.id h)
  unfold nextAlertId
  omega

theorem countP_congr_mem {α : Type} {l : List α} {p q : α → Bool}
    (h : ∀ a ∈ l, p a = q a) : l.countP p = l.countP q := by
  induction l with
  | nil => rfl
  | cons x t ih =>
    rw [List.countP_cons, List.countP_cons, h x (List.mem_cons_self x t),
      ih (fun a ha => h a (List.mem_cons_of_mem x ha))]

theorem eq_of_mem_nodup_id {l : List Alert} (h : (l.map Alert.id).Nodup)
    {x y : Alert} (hx : x ∈ l) (hy : y ∈ l) (hid : x.id = y.id) : x = y :=
  List.inj_on_of_nodup_map h hx hy hid

theorem findAlert_mem {s : SysState} {i : ℕ} {a : Alert}
    (h : findAlert s i = some a) : a ∈ s.alerts ∧ a.id = i := by
  unfold findAlert at h
  exact ⟨List.mem_of_find?_eq_some h, by simpa using List.find?_some h⟩

theorem foldl_pickLatest_ne_none (t : List Alert) :
    ∀ b : Alert, t.foldl pickLatest (some b) ≠ none := by
  induction t with
  | nil =>
    intro b h
    exact Option.noConfusion h
  | cons x t ih =>
    intro b
    rw [List.foldl_cons]
    show t.foldl pickLatest (if b.created_at < x.created_at then some x else some b) ≠ none
    by_cases hc : b.created_at < x.created_at
    · rw [if_pos hc]
      exact ih x
    · rw [if_neg hc]
      exact ih b

theorem latest_open_alert_none_filter (alerts : List Alert) (sensorId : ℕ)
    (h : latest_open_alert alerts sensorId = none) :
    alerts.filter
      (fun a => decide (a.sensorId = sensorId) &&
        decide (a.status = AlertStatus.OPEN)) = [] := by
  unfold latest_open_alert at h
  cases hf : alerts.filter
      (fun a => decide (a.sensorId = sensorId) &&
        decide (a.status = AlertStatus.OPEN)) with
  | nil => rfl
  | cons x t =>
    rw [hf, List.foldl_cons] at h
    exact absurd h (foldl_pickLatest_ne_none t x)


theorem process_due_frame (st : Settings) (users : List DUser)
    (transport : Except String Unit) (now : ℕ) (a : Alert) :
    ((process_due_alert_email_only st users transport now a).1.id = a.id ∧
      (process_due_alert_email_only st users transport now a).1.sensorId = a.sensorId ∧
      (process_due_alert_email_only st users transport now a).1.status = a.status) ∧
    ((process_due_alert_email_only st users transport now a).1 = a ∨
      ((process_due_alert_email_only st users transport now a).1.level = a.level ∧
        (process_due_alert_email_only st users transport now a).1.tries_without_response =
          attempt_number st a) ∨
      ((process_due_alert_email_only st users transport now a).1.level = a.level + 1 ∧
        (process_due_alert_email_only st users transport now a).1.tries_without_response = 0)) := by
  by_cases h0 : a.status ≠ AlertStatus.OPEN
  · rw [process_due_not_open st users transport now a h0]
    exact ⟨⟨rfl, rfl, rfl⟩, Or.inl rfl⟩
  · by_cases hn : notYetDue now a.next_retry_at = true
    · rw [process_due_not_yet_due st users transport now a hn]
      exact ⟨⟨rfl, rfl, rfl⟩, Or.inl rfl⟩
    · have hopen : a.status = AlertStatus.OPEN := not_not.mp h0
      have hnyd : notYetDue now a.next_retry_at = false := by simpa using hn
      by_cases h1 : attempt_number st a ≥ (get_monitoring_config st).escalationCount
      · by_cases h2 : a.level < 3
        · rw [process_due_escalate st users transport now a hopen hnyd h1 h2]
          exact ⟨⟨rfl, rfl, rfl⟩, Or.inr (Or.inr ⟨rfl, rfl⟩)⟩
        · rw [process_due_repeat st users transport now a hopen hnyd h1 h2]
          exact ⟨⟨rfl, rfl, rfl⟩, Or.inr (Or.inl ⟨rfl, rfl⟩)⟩
      · rw [process_due_retry st users transport now a hopen hnyd h1]
        exact ⟨⟨rfl, rfl, rfl⟩, Or.inr (Or.inl ⟨rfl, rfl⟩)⟩

theorem get_or_create_in_range (st : Settings) (alerts : List Alert)
    (sensorId : ℕ) (reading : Reading) (now newId : ℕ)
    (h : is_out_of_range st reading.temperature = false) :
    get_or_create_open_alert_for_sensor st alerts sensorId reading now newId =
      (none, alerts) := by
  unfold get_or_create_open_alert_for_sensor
  rw [if_pos (by simp [h])]

theorem get_or_create_update (st : Settings) (alerts : List Alert)
    (sensorId : ℕ) (reading : Reading) (now newId : ℕ) (a0 : Alert)
    (h : is_out_of_range st reading.temperature = true)
    (hl : latest_open_alert alerts sensorId = some a0) :
    get_or_create_open_alert_for_sensor st alerts sensorId reading now newId =
      (some {
          a0 with
          temperature := reading.temperature
          humidity := reading.humidity
          severity := compute_severity st reading.temperature
          updated_at := now },
        updateAlert alerts {
          a0 with
          temperature := reading.temperature
          humidity := reading.humidity
          severity := compute_severity st reading.temperature
          updated_at := now }) := by
  unfold get_or_create_open_alert_for_sensor
  rw [if_neg (by simp [h]), hl]

theorem get_or_create_create (st : Settings) (alerts : List Alert)
    (sensorId : ℕ) (reading : Reading) (now newId : ℕ)
    (h : is_out_of_range st reading.temperature = true)
    (hl : latest_open_alert alerts sensorId = none) :
    get_or_create_open_alert_for_sensor st alerts sensorId reading now newId =
      (some {
          id := newId
          sensorId := sensorId
          temperature := reading.temperature
          humidity := reading.humidity
          status := AlertStatus.OPEN
          severity := compute_severity st reading.temperature
          level := 1
          tries_without_response := 0
          next_retry_at := some now
          last_notified_at := none
          acked_by := none
          acked_at := none
          resolved_by := none
          resolved_at := none
          created_at := now
          updated_at := now },
        alerts ++ [{
          id := newId
          sensorId := sensorId
          temperature := reading.temperature
          humidity := reading.humidity
          status := AlertStatus.OPEN
          severity := compute_severity st reading.temperature
          level := 1
          tries_without_response := 0
          next_retry_at := some now
          last_notified_at := none
          acked_by := none
          acked_at := none
          resolved_by := none
          resolved_at := none
          created_at := now
          updated_at := now }]) := by
  unfold get_or_create_open_alert_for_sensor
  rw [if_neg (by simp [h]), hl]


theorem countP_updateAlert_eq (l : List Alert) (b a0 : Alert) (p : Alert → Bool)
    (hnd : (l.map Alert.id).Nodup) (hmem : a0 ∈ l) (hbid : b.id = a0.id)
    (hpb : p b = p a0) :
    (updateAlert l b).countP p = l.countP p := by
  unfold updateAlert
  rw [List.countP_map]
  apply countP_congr_mem
  intro x hx
  show p (if x.id = b.id then b else x) = p x
  by_cases hxb : x.id = b.id
  · have hx0 : x = a0 := eq_of_mem_nodup_id hnd hx hmem (hxb.trans hbid)
    rw [if_pos hxb, hpb, hx0]
  · rw [if_neg hxb]

theorem countP_updateAlert_le (l : List Alert) (b a0 : Alert) (p : Alert → Bool)
    (hnd : (l.map Alert.id).Nodup) (hmem : a0 ∈ l) (hbid : b.id = a0.id)
    (hpb : p b = true → p a0 = true) :
    (updateAlert l b).countP p ≤ l.countP p := by
  unfold updateAlert
  rw [List.countP_map]
  apply List.countP_mono_left
  intro x hx hpx
  have hpx' : p (if x.id = b.id then b else x) = true := hpx
  by_cases hxb : x.id = b.id
  · rw [if_pos hxb] at hpx'
    have hx0 : x = a0 := eq_of_mem_nodup_id hnd hx hmem (hxb.trans hbid)
    rw [hx0]
    exact hpb hpx'
  · rwa [if_neg hxb] at hpx'

theorem mem_updateAlert {l : List Alert} {b y : Alert} (hy : y ∈ updateAlert l b) :
    y = b ∨ y ∈ l := by
  unfold updateAlert at hy
  obtain ⟨x, hx, hxy⟩ := List.mem_map.mp hy
  by_cases hxb : x.id = b.id
  · rw [if_pos hxb] at hxy
    exact Or.inl hxy.symm
  · rw [if_neg hxb] at hxy
    exact Or.inr (hxy ▸ hx)

theorem foldl_pickLatest_mem (t : List Alert) :
    ∀ (acc : Option Alert) (b : Alert), t.foldl pickLatest acc = some b →
      acc = some b ∨ b ∈ t := by
  induction t with
  | nil =>
    intro acc b h
    exact Or.inl h
  | cons x t ih =>
    intro acc b h
    rw [List.foldl_cons] at h
    rcases ih (pickLatest acc x) b h with hacc | hmem
    · cases acc with
      | none =>
        have hx : x = b := by simpa [pickLatest] using hacc
        exact Or.inr (hx ▸ List.mem_cons_self x t)
      | some c =>
        by_cases hc : c.created_at < x.created_at
        · have hx : x = b := by simpa [pickLatest, hc] using hacc
          exact Or.inr (hx ▸ List.mem_cons_self x t)
        · have hcb : c = b := by simpa [pickLatest, hc] using hacc
          exact Or.inl (by rw [hcb])
    · exact Or.inr (List.mem_cons_of_mem x hmem)

theorem latest_open_alert_mem {alerts : List Alert} {sensorId : ℕ} {a0 : Alert}
    (h : latest_open_alert alerts sensorId = some a0) :
    a0 ∈ alerts ∧ a0.sensorId = sensorId ∧ a0.status = AlertStatus.OPEN := by
  unfold latest_open_alert at h
  rcases foldl_pickLatest_mem _ none a0 h with hacc | hmem
  · exact absurd hacc (by simp)
  · obtain ⟨hmem', hpred⟩ := List.mem_filter.mp hmem
    simp only [Bool.and_eq_true, decide_eq_true_eq] at hpred
    exact ⟨hmem', hpred.1, hpred.2⟩

theorem sysStep_preserves_inv (st : Settings) (users : List DUser)
    (s : SysState) (op : SysOp) (h : SysInv st s) :
    SysInv st (sysStep st users s op) := by
  obtain ⟨hnd, hopen, htry⟩ := h
  cases op with
  | processDue now transport tid =>
    cases hfind : findAlert s tid with
    | none =>
      simp only [sysStep, hfind]
      exact ⟨hnd, hopen, htry⟩
    | some a0 =>
      obtain ⟨hmem, _⟩ := findAlert_mem hfind
      obtain ⟨⟨hbid, hbsens, hbstat⟩, hcases⟩ :=
        process_due_frame st users transport now a0
      simp only [sysStep, hfind]
      refine ⟨?_, ?_, ?_⟩
      · show ((updateAlert s.alerts _).map Alert.id).Nodup
        rw [updateAlert_map_id]
        exact hnd
      · intro sid
        show (updateAlert s.alerts _).countP _ ≤ 1
        rw [countP_updateAlert_eq s.alerts _ a0 _ hnd hmem hbid
          (by rw [hbsens, hbstat])]
        exact hopen sid
      · intro y hy
        rcases mem_updateAlert hy with h' | hyl
        · rcases hcases with hb | ⟨_, hb⟩ | ⟨_, hb⟩
          · rw [h', hb]
            exact htry a0 hmem
          · rw [h', hb]
            exact min_le_right _ _
          · rw [h', hb]
            exact Nat.zero_le _
        · exact htry y hyl
  | acknowledge u now tid =>
    cases hfind : findAlert s tid with
    | none =>
      simp only [sysStep, hfind]
      exact ⟨hnd, hopen, htry⟩
    | some a0 =>
      obtain ⟨hmem, _⟩ := findAlert_mem hfind
      by_cases hs : a0.status ≠ AlertStatus.OPEN
      · simp only [sysStep, hfind, ack, if_pos hs]
        exact ⟨hnd, hopen, htry⟩
      · simp only [sysStep, hfind, ack, if_neg hs]
        refine ⟨?_, ?_, ?_⟩
        · show ((updateAlert s.alerts _).map Alert.id).Nodup
          rw [updateAlert_map_id]
          exact hnd
        · intro sid
          show (updateAlert s.alerts _).countP _ ≤ 1
          refine le_trans (countP_updateAlert_le s.alerts _ a0 _ hnd hmem rfl ?_)
            (hopen sid)
          intro hpb
          exact absurd hpb (by simp)
        · intro y hy
          rcases mem_updateAlert hy with h' | hyl
          · rw [h']
            exact htry a0 hmem
          · exact htry y hyl
  | resolveOp u now tid =>
    cases hfind : findAlert s tid with
    | none =>
      simp only [sysStep, hfind]
      exact ⟨hnd, hopen, htry⟩
    | some a0 =>
      obtain ⟨hmem, _⟩ := findAlert_mem hfind
      by_cases hs : a0.status = AlertStatus.RESOLVED
      · simp only [sysStep, hfind, resolve, if_pos hs]
        exact ⟨hnd, hopen, htry⟩
      · simp only [sysStep, hfind, resolve, if_neg hs]
        refine ⟨?_, ?_, ?_⟩
        · show ((updateAlert s.alerts _).map Alert.id).Nodup
          rw [updateAlert_map_id]
          exact hnd
        · intro sid
          show (updateAlert s.alerts _).countP _ ≤ 1
          refine le_trans (countP_updateAlert_le s.alerts _ a0 _ hnd hmem rfl ?_)
            (hopen sid)
          intro hpb
          exact absurd hpb (by simp)
        · intro y hy
          rcases mem_updateAlert hy with h' | hyl
          · rw [h']
            exact htry a0 hmem
          · exact htry y hyl
  | createOrUpdate sid rd now =>
    by_cases hrange : is_out_of_range st rd.temperature = true
    · cases hl : latest_open_alert s.alerts sid with
      | some a0 =>
        obtain ⟨hmem, hsens0, hstat0⟩ := latest_open_alert_mem hl
        simp only [sysStep,
          get_or_create_update st s.alerts sid rd now (nextAlertId s) a0 hrange hl]
        refine ⟨?_, ?_, ?_⟩
        · show ((updateAlert s.alerts _).map Alert.id).Nodup
          rw [updateAlert_map_id]
          exact hnd
        · intro sid'
          show (updateAlert s.alerts _).countP _ ≤ 1
          exact le_of_eq_of_le
            (countP_updateAlert_eq s.alerts _ a0 _ hnd hmem rfl rfl) (hopen sid')
        · intro y hy
          rcases mem_updateAlert hy with h' | hyl
          · rw [h']
            exact htry a0 hmem
          · exact htry y hyl
      | none =>
        have hfilter := latest_open_alert_none_filter s.alerts sid hl
        simp only [sysStep,
          get_or_create_create st s.alerts sid rd now (nextAlertId s) hrange hl]
        refine ⟨?_, ?_, ?_⟩
        · show ((s.alerts ++ [_]).map Alert.id).Nodup
          rw [List.map_append, List.nodup_append]
          refine ⟨hnd, by simp, ?_⟩
          intro i hi hi'
          obtain ⟨x, hx, hxi⟩ := List.mem_map.mp hi
          have hlt := alert_id_lt_nextAlertId s x hx
          simp only [List.map_cons, List.map_nil, List.mem_singleton] at hi'
          rw [hi'] at hxi
          omega
        · intro sid'
          show ((s.alerts ++ [_]).countP _) ≤ 1
          rw [List.countP_append]
          by_cases hsid : sid' = sid
          · subst hsid
            have hz : s.alerts.countP
                (fun a => decide (a.sensorId = sid') &&
                  decide (a.status = AlertStatus.OPEN)) = 0 := by
              rw [List.countP_eq_length_filter, hfilter]
              rfl
            rw [hz]
            rw [List.countP_cons, List.countP_nil]
            split_ifs <;> simp
          · rw [List.countP_cons, List.countP_nil]
            split_ifs with hp
            · exfalso
              simp only [Bool.and_eq_true, decide_eq_true_eq] at hp
              exact hsid (hp.1.symm)
            · have := hopen sid'
              unfold openCount at this
              omega
        · intro y hy
          rcases List.mem_append.mp hy with hyl | hy1
          · exact htry y hyl
          · have hy' := List.mem_singleton.mp hy1
            rw [hy']
            exact Nat.zero_le _
    · have hfalse : is_out_of_range st rd.temperature = false := by
        simpa using hrange
      simp only [sysStep,
        get_or_create_in_range st s.alerts sid rd now (nextAlertId s) hfalse]
      exact ⟨hnd, hopen, htry⟩

theorem reachable_sysInv (st : Settings) (users : List DUser) :
    ∀ s, Reachable st users s → SysInv st s := by
  intro s h
  induction h with
  | init =>
    refine ⟨by simp [initState], ?_, by simp [initState]⟩
    intro sid
    simp [openCount, initState]
  | step s' op _ ih =>
    exact sysStep_preserves_inv st users s' op ih


theorem triple_of_eq {a a' : Alert} (hl : a'.level = a.level)
    (ht : a'.tries_without_response = a.tries_without_response) :
    a.level ≤ a'.level ∧
    (a'.level ≠ a.level → a'.level = a.level + 1 ∧ a'.tries_without_response = 0) ∧
    (a'.tries_without_response < a.tries_without_response →
      a'.level = a.level + 1) :=
  ⟨le_of_eq hl.symm, fun hne => absurd hl hne,
    fun hlt => absurd (ht ▸ hlt) (lt_irrefl _)⟩

theorem find_update_levels (s : SysState) (b a0 : Alert) (i : ℕ) (a a' : Alert)
    (hnd : (s.alerts.map Alert.id).Nodup) (hmem0 : a0 ∈ s.alerts)
    (hfind : findAlert s i = some a)
    (hfind' : (updateAlert s.alerts b).find? (fun x => decide (x.id = i)) = some a')
    (hbid : b.id = a0.id) (hbl : b.level = a0.level)
    (hbt : b.tries_without_response = a0.tries_without_response) :
    a'.level = a.level ∧ a'.tries_without_response = a.tries_without_response := by
  rw [find?_updateAlert] at hfind'
  have hamem : a ∈ s.alerts := (findAlert_mem hfind).1
  unfold findAlert at hfind
  rw [hfind, Option.map_some'] at hfind'
  replace hfind' := Option.some.inj hfind'
  by_cases hid : a.id = b.id
  · rw [if_pos hid] at hfind'
    have ha0 : a = a0 := eq_of_mem_nodup_id hnd hamem hmem0 (hid.trans hbid)
    subst hfind'
    exact ⟨by rw [hbl, ha0], by rw [hbt, ha0]⟩
  · rw [if_neg hid] at hfind'
    subst hfind'
    exact ⟨rfl, rfl⟩

theorem sysStep_processDue_noop (st : Settings) (users : List DUser)
    (s : SysState) (i now : ℕ) (transport : Except String Unit) {a : Alert}
    (hnd : (s.alerts.map Alert.id).Nodup)
    (hfind : findAlert s i = some a) (hst : a.status ≠ AlertStatus.OPEN) :
    sysStep st users s (SysOp.processDue now transport i) = s := by
  obtain ⟨hmem, _⟩ := findAlert_mem hfind
  simp only [sysStep, hfind, process_due_not_open st users transport now a hst]
  have hupd : updateAlert s.alerts a = s.alerts := by
    unfold updateAlert
    conv_rhs => rw [← List.map_id s.alerts]
    apply List.map_congr_left
    intro x hx
    by_cases hxa : x.id = a.id
    · have : x = a := eq_of_mem_nodup_id hnd hx hmem hxa
      rw [if_pos hxa, this]
      rfl
    · rw [if_neg hxa]
      rfl
  rw [hupd]
  rfl


/-- C3: in every reachable state each sensor has at most one OPEN alert:
ingestion of an out-of-range reading with an existing OPEN alert updates
it in place (no row added), and neither `process_due_alert_email_only`
nor `ack` nor `resolve` ever adds an alert row. -/
theorem c3_at_most_one_open_per_sensor (st : Settings) (users : List DUser) :
    (∀ s, Reachable st users s → ∀ sensorId, openCount s sensorId ≤ 1) ∧
    (∀ s now transport alertId,
      (sysStep st users s (SysOp.processDue now transport alertId)).alerts.length =
        s.alerts.length) ∧
    (∀ s userId now alertId,
      (sysStep st users s (SysOp.acknowledge userId now alertId)).alerts.length =
        s.alerts.length) ∧
    (∀ s userId now alertId,
      (sysStep st users s (SysOp.resolveOp userId now alertId)).alerts.length =
        s.alerts.length) ∧
    (∀ s sensorId reading now a0,
      is_out_of_range st reading.temperature = true →
      latest_open_alert s.alerts sensorId = some a0 →
      (sysStep st users s (SysOp.createOrUpdate sensorId reading now)).alerts.length =
        s.alerts.length) := by
  refine ⟨?_, ?_, ?_, ?_, ?_⟩
  · intro s h sensorId
    exact (reachable_sysInv st users s h).2.1 sensorId
  · intro s now transport alertId
    cases hfind : findAlert s alertId with
    | none => simp only [sysStep, hfind]
    | some a0 =>
      simp only [sysStep, hfind]
      exact updateAlert_length _ _
  · intro s userId now alertId
    cases hfind : findAlert s alertId with
    | none => simp only [sysStep, hfind]
    | some a0 =>
      by_cases hs : a0.status ≠ AlertStatus.OPEN
      · simp only [sysStep, hfind, ack, if_pos hs]
      · simp only [sysStep, hfind, ack, if_neg hs]
        exact updateAlert_length _ _
  · intro s userId now alertId
    cases hfind : findAlert s alertId with
    | none => simp only [sysStep, hfind]
    | some a0 =>
      by_cases hs : a0.status = AlertStatus.RESOLVED
      · simp only [sysStep, hfind, resolve, if_pos hs]
      · simp only [sysStep, hfind, resolve, if_neg hs]
        exact updateAlert_length _ _
  · intro s sensorId reading now a0 hr hl
    simp only [sysStep,
      get_or_create_update st s.alerts sensorId reading now (nextAlertId s) a0 hr hl]
    exact updateAlert_length _ _

/-- C3 (witness): after ingesting one out-of-range reading into the empty
store, sensor 7 has exactly at most one OPEN alert. -/
theorem c3_at_most_one_open_per_sensor_witness :
    openCount (sysStep noOverrides [] initState
      (SysOp.createOrUpdate 7 { temperature := some 20, humidity := some 1 } 5)) 7 ≤ 1 :=
  (c3_at_most_one_open_per_sensor noOverrides []).1 _
    (Reachable.step initState
      (SysOp.createOrUpdate 7 { temperature := some 20, humidity := some 1 } 5)
      Reachable.init) 7


/-- C4: in every reachable state every alert's `tries_without_response`
lies in `[0, escalationCount]`; across every core step
(ProcessDue / Acknowledge / Resolve / CreateOrUpdate) the level of an
alert never decreases, a level change is exactly an increment by one with
tries reset to 0, and tries only ever drop when the level increments. -/
theorem c4_tries_bounded_level_monotone (st : Settings) (users : List DUser) :
    (∀ s, Reachable st users s → ∀ a ∈ s.alerts,
      a.tries_without_response ≤ (get_monitoring_config st).escalationCount) ∧
    (∀ s, Reachable st users s → ∀ op i a a',
      findAlert s i = some a →
      findAlert (sysStep st users s op) i = some a' →
      (a.level ≤ a'.level ∧
        (a'.level ≠ a.level →
          a'.level = a.level + 1 ∧ a'.tries_without_response = 0) ∧
        (a'.tries_without_response < a.tries_without_response →
          a'.level = a.level + 1))) := by
  constructor
  · intro s h
    exact (reachable_sysInv st users s h).2.2
  · intro s hreach op i a a' hfind hfind'
    obtain ⟨hnd, _, htry⟩ := reachable_sysInv st users s hreach
    obtain ⟨hamem, _⟩ := findAlert_mem hfind
    cases op with
    | processDue now transport tid =>
      cases htfind : findAlert s tid with
      | none =>
        have hstep : sysStep st users s (SysOp.processDue now transport tid) = s := by
          simp only [sysStep, htfind]
        rw [hstep, hfind] at hfind'
        obtain rfl := Option.some.inj hfind'
        exact triple_of_eq rfl rfl
      | some t0 =>
        obtain ⟨htmem, _⟩ := findAlert_mem htfind
        have hchar : findAlert (sysStep st users s (SysOp.processDue now transport tid)) i =
            (updateAlert s.alerts
              (process_due_alert_email_only st users transport now t0).1).find?
              (fun x => decide (x.id = i)) := by
          simp only [sysStep, htfind]
          rfl
        rw [hchar, find?_updateAlert] at hfind'
        unfold findAlert at hfind
        rw [hfind, Option.map_some'] at hfind'
        replace hfind' := Option.some.inj hfind'
        by_cases hid : a.id = (process_due_alert_email_only st users transport now t0).1.id
        · rw [if_pos hid] at hfind'
          have hat : a = t0 := by
            apply eq_of_mem_nodup_id hnd hamem htmem
            rw [hid, (process_due_frame st users transport now t0).1.1]
          subst hat
          subst hfind'
          rcases (process_due_frame st users transport now a).2 with hb | ⟨hbl, hbt⟩ | ⟨hbl, hbt⟩
          · exact triple_of_eq (by rw [hb]) (by rw [hb])
          · refine ⟨le_of_eq hbl.symm, fun hne => absurd hbl hne, fun hlt => ?_⟩
            exfalso
            rw [hbt] at hlt
            have hb2 := htry a hamem
            unfold attempt_number at hlt
            omega
          · exact ⟨by rw [hbl]; exact Nat.le_succ _, fun _ => ⟨hbl, hbt⟩, fun _ => hbl⟩
        · rw [if_neg hid] at hfind'
          subst hfind'
          exact triple_of_eq rfl rfl
    | acknowledge u now2 tid =>
      cases htfind : findAlert s tid with
      | none =>
        have hstep : sysStep st users s (SysOp.acknowledge u now2 tid) = s := by
          simp only [sysStep, htfind]
        rw [hstep, hfind] at hfind'
        obtain rfl := Option.some.inj hfind'
        exact triple_of_eq rfl rfl
      | some t0 =>
        obtain ⟨htmem, _⟩ := findAlert_mem htfind
        by_cases hs : t0.status ≠ AlertStatus.OPEN
        · have hstep : sysStep st users s (SysOp.acknowledge u now2 tid) = s := by
            simp only [sysStep, htfind, ack, if_pos hs]
          rw [hstep, hfind] at hfind'
          obtain rfl := Option.some.inj hfind'
          exact triple_of_eq rfl rfl
        · simp only [sysStep, htfind, ack, if_neg hs] at hfind'
          have h2 := find_update_levels s _ t0 i a a' hnd htmem hfind hfind' rfl rfl rfl
          exact triple_of_eq h2.1 h2.2
    | resolveOp u now2 tid =>
      cases htfind : findAlert s tid with
      | none =>
        have hstep : sysStep st users s (SysOp.resolveOp u now2 tid) = s := by
          simp only [sysStep, htfind]
        rw [hstep, hfind] at hfind'
        obtain rfl := Option.some.inj hfind'
        exact triple_of_eq rfl rfl
      | some t0 =>
        obtain ⟨htmem, _⟩ := findAlert_mem htfind
        by_cases hs : t0.status = AlertStatus.RESOLVED
        · have hstep : sysStep st users s (SysOp.resolveOp u now2 tid) = s := by
            simp only [sysStep, htfind, resolve, if_pos hs]
          rw [hstep, hfind] at hfind'
          obtain rfl := Option.some.inj hfind'
          exact triple_of_eq rfl rfl
        · simp only [sysStep, htfind, resolve, if_neg hs] at hfind'
          have h2 := find_update_levels s _ t0 i a a' hnd htmem hfind hfind' rfl rfl rfl
          exact triple_of_eq h2.1 h2.2
    | createOrUpdate sid rd now =>
      by_cases hrange : is_out_of_range st rd.temperature = true
      · cases hl : latest_open_alert s.alerts sid with
        | some t0 =>
          obtain ⟨htmem, _, _⟩ := latest_open_alert_mem hl
          simp only [sysStep,
            get_or_create_update st s.alerts sid rd now (nextAlertId s) t0 hrange hl] at hfind'
          have h2 := find_update_levels s _ t0 i a a' hnd htmem hfind hfind' rfl rfl rfl
          exact triple_of_eq h2.1 h2.2
        | none =>
          have hchar : findAlert (sysStep st users s (SysOp.createOrUpdate sid rd now)) i =
              some a := by
            simp only [sysStep,
              get_or_create_create st s.alerts sid rd now (nextAlertId s) hrange hl]
            show List.find? _ (s.alerts ++ [_]) = some a
            rw [List.find?_append]
            unfold findAlert at hfind
            rw [hfind]
            rfl
          rw [hchar] at hfind'
          obtain rfl := Option.some.inj hfind'
          exact triple_of_eq rfl rfl
      · have hfalse : is_out_of_range st rd.temperature = false := by
          simpa using hrange
        have hstep : sysStep st users s (SysOp.createOrUpdate sid rd now) = s := by
          simp only [sysStep,
            get_or_create_in_range st s.alerts sid rd now (nextAlertId s) hfalse]
        rw [hstep, hfind] at hfind'
        obtain rfl := Option.some.inj hfind'
        exact triple_of_eq rfl rfl


/-- C4 (witness): the alert created by ingesting an out-of-range reading
into the empty store has its retry counter within the configured cap. -/
theorem c4_tries_bounded_level_monotone_witness :
    Alert.tries_without_response
      { id := 1, sensorId := 7, temperature := some 20, humidity := some 1,
        status := AlertStatus.OPEN,
        severity := compute_severity noOverrides (some 20), level := 1,
        tries_without_response := 0, next_retry_at := some 5,
        last_notified_at := none, acked_by := none, acked_at := none,
        resolved_by := none, resolved_at := none, created_at := 5,
        updated_at := 5 } ≤
      (get_monitoring_config noOverrides).escalationCount :=
  (c4_tries_bounded_level_monotone noOverrides []).1 _
    (Reachable.step initState
      (SysOp.createOrUpdate 7 { temperature := some 20, humidity := some 1 } 5)
      Reachable.init)
    _ (List.mem_singleton.mpr rfl)

/-- C9: after a successful `ack` or `resolve`, `next_retry_at` is null and
the status is no longer OPEN, so every later driver tick running
`process_due_alert_email_only` on that alert — any number of times, at any
times, with any transport outcome — leaves the entire store unchanged: no
alert field changes and no `AlertNotificationLog` row is appended. -/
theorem c9_scheduling_terminates (st : Settings) (users : List DUser)
    (userId now : ℕ) (alert a1 : Alert)
    (h : ack userId now alert = Except.ok a1 ∨
      resolve userId now alert = Except.ok a1) :
    a1.next_retry_at = none ∧ a1.status ≠ AlertStatus.OPEN ∧
    ∀ s : SysState, (s.alerts.map Alert.id).Nodup → findAlert s a1.id = some a1 →
      ∀ runs : List (ℕ × Except String Unit),
        runs.foldl
          (fun t p => sysStep st users t (SysOp.processDue p.1 p.2 a1.id)) s = s := by
  have hfields : a1.next_retry_at = none ∧ a1.status ≠ AlertStatus.OPEN := by
    rcases h with h | h
    · by_cases hs : alert.status ≠ AlertStatus.OPEN
      · rw [ack, if_pos hs] at h
        exact absurd h (by simp)
      · rw [ack, if_neg hs] at h
        simp only [Except.ok.injEq] at h
        subst h
        exact ⟨rfl, by simp⟩
    · by_cases hs : alert.status = AlertStatus.RESOLVED
      · rw [resolve, if_pos hs] at h
        exact absurd h (by simp)
      · rw [resolve, if_neg hs] at h
        simp only [Except.ok.injEq] at h
        subst h
        exact ⟨rfl, by simp⟩
  refine ⟨hfields.1, hfields.2, ?_⟩
  intro s hnd hfind runs
  revert s
  induction runs with
  | nil =>
    intro s _ _
    rfl
  | cons p t ih =>
    intro s hnd hfind
    rw [List.foldl_cons,
      sysStep_processDue_noop st users s a1.id p.1 p.2 hnd hfind hfields.2]
    exact ih s hnd hfind

/-- C9 (witness): once a concrete level-3 OPEN alert is acknowledged, two
further driver ticks (one with a succeeding transport, one with a failing
one) leave the store with that alert bitwise unchanged and no log rows. -/
theorem c9_scheduling_terminates_witness :
    [((20 : ℕ), (Except.ok () : Except String Unit)), (30, Except.error "x")].foldl
      (fun t p => sysStep noOverrides [] t (SysOp.processDue p.1 p.2 2))
      { alerts :=
          [{ id := 2, sensorId := 1, temperature := none, humidity := none,
             status := AlertStatus.ACKNOWLEDGED, severity := Severity.LOW,
             level := 3, tries_without_response := 3, next_retry_at := none,
             last_notified_at := some 3, acked_by := some 9, acked_at := some 8,
             resolved_by := none, resolved_at := none, created_at := 0,
             updated_at := 8 }],
        logs := [], tickets := [] } =
      { alerts :=
          [{ id := 2, sensorId := 1, temperature := none, humidity := none,
             status := AlertStatus.ACKNOWLEDGED, severity := Severity.LOW,
             level := 3, tries_without_response := 3, next_retry_at := none,
             last_notified_at := some 3, acked_by := some 9, acked_at := some 8,
             resolved_by := none, resolved_at := none, created_at := 0,
             updated_at := 8 }],
        logs := [], tickets := [] } :=
  (c9_scheduling_terminates noOverrides [] 9 8
    { id := 2, sensorId := 1, temperature := none, humidity := none,
      status := AlertStatus.OPEN, severity := Severity.LOW, level := 3,
      tries_without_response := 3, next_retry_at := some 4,
      last_notified_at := some 3, acked_by := none, acked_at := none,
      resolved_by := none, resolved_at := none, created_at := 0,
      updated_at := 3 }
    { id := 2, sensorId := 1, temperature := none, humidity := none,
      status := AlertStatus.ACKNOWLEDGED, severity := Severity.LOW,
      level := 3, tries_without_response := 3, next_retry_at := none,
      last_notified_at := some 3, acked_by := some 9, acked_at := some 8,
      resolved_by := none, resolved_at := none, created_at := 0,
      updated_at := 8 }
    (Or.inl rfl)).2.2
    { alerts :=
        [{ id := 2, sensorId := 1, temperature := none, humidity := none,
           status := AlertStatus.ACKNOWLEDGED, severity := Severity.LOW,
           level := 3, tries_without_response := 3, next_retry_at := none,
           last_notified_at := some 3, acked_by := some 9, acked_at := some 8,
           resolved_by := none, resolved_at := none, created_at := 0,
           updated_at := 8 }],
      logs := [], tickets := [] }
    (by decide) rfl
    [((20 : ℕ), (Except.ok () : Except String Unit)), (30, Except.error "x")]

end DHTSpec
